import Mathlib

/-!
# terraform-provider-k8scrd: provider configuration and the CRD instance resource

A shallow embedding of `internal/provider/provider.go` (`K8sProvider.Configure`)
and `internal/provider/crd_resource.go` (`createOrUpdate`, `Create`, `Update`),
followed by the properties proved about them.

Values of the plugin framework (`types.String`, `types.Map`, `diag.Diagnostics`)
are modelled by small inductive types that keep the three states null / unknown /
known and the de-duplicating append of the diagnostics collection.
-/

namespace K8sCrd

/-! ## Framework values -/

/-- The framework type `types.String`: a string attribute is null (absent from the
configuration), unknown (not yet resolved) or holds a known value. -/
inductive TfString where
  | null : TfString
  | unknown : TfString
  | value (s : String) : TfString
deriving DecidableEq, Repr

namespace TfString

/-- Method `IsNull()`: true only for the null state. -/
def IsNull : TfString → Bool
  | null => true
  | _ => false

/-- Method `IsUnknown()`: true only for the unknown state. -/
def IsUnknown : TfString → Bool
  | unknown => true
  | _ => false

/-- Method `ValueString()`: the known value, and the empty string for null and unknown. -/
def ValueString : TfString → String
  | value s => s
  | _ => ""

end TfString

/-- Severity of a diagnostic. -/
inductive Severity where
  | error : Severity
  | warning : Severity
deriving DecidableEq, Repr

/-- One diagnostic: severity, optional attribute path (set by `AddAttributeError`),
summary and detail. Two diagnostics are equal when all four agree. -/
structure Diagnostic where
  severity : Severity
  path : Option String
  summary : String
  detail : String
deriving DecidableEq, Repr

/-- The collection `diag.Diagnostics`, in insertion order. -/
abbrev Diagnostics := List Diagnostic

namespace Diagnostics

/-- Method `HasError()`: some entry has error severity. -/
def HasError (ds : Diagnostics) : Bool :=
  ds.any (fun d => decide (d.severity = Severity.error))

/-- Appending one diagnostic: an entry equal to one already present is skipped. -/
def push (ds : Diagnostics) (d : Diagnostic) : Diagnostics :=
  if d ∈ ds then ds else ds ++ [d]

/-- Method `Append(in...)`: the entries are appended in order, duplicates skipped. -/
def Append (ds : Diagnostics) (more : Diagnostics) : Diagnostics :=
  more.foldl push ds

/-- Method `AddError(summary, detail)`: one error entry without path is appended. -/
def AddError (ds : Diagnostics) (summary detail : String) : Diagnostics :=
  push ds ⟨Severity.error, none, summary, detail⟩

/-- Method `AddAttributeError(path, summary, detail)`: one error entry with a path is
appended. -/
def AddAttributeError (ds : Diagnostics) (path summary detail : String) : Diagnostics :=
  push ds ⟨Severity.error, some path, summary, detail⟩

end Diagnostics

/-! ## provider.go -/

/-- The provider data model decoded from the configuration. -/
structure K8sProviderModel where
  Host : TfString
  Token : TfString
  Username : TfString
  Password : TfString
deriving DecidableEq, Repr

/-- The configuration handed to resources and data sources. -/
structure K8sProviderConfiguration where
  Host : String
  Token : String
  Username : String
  Password : String
deriving DecidableEq, Repr

/-- The four environment variables read by `Configure`; `os.Getenv` gives the empty
string for a variable that is not set. -/
structure Environment where
  K8S_HOST : String
  K8S_TOKEN : String
  K8S_USERNAME : String
  K8S_PASSWORD : String
deriving DecidableEq, Repr

/-- The part of `provider.ConfigureResponse` that `Configure` writes. -/
structure ConfigureResponse where
  Diagnostics : Diagnostics
  DataSourceData : Option K8sProviderConfiguration
  ResourceData : Option K8sProviderConfiguration
deriving DecidableEq, Repr

/-- Diagnostic added when the static host is unknown. -/
def unknownHost : Diagnostic :=
  ⟨Severity.error, some "host", "Unknown Kubernetes API Server host",
    "The provider cannot create the Kubernetes API client as there is an unknown configuration value for the API Server endpoint. " ++
    "Set the value statically in the configuration, or use the K8S_HOST environment variable."⟩

/-- Diagnostic added when the static token is unknown together with the username or
the password. -/
def unknownCredentials : Diagnostic :=
  ⟨Severity.error, none, "Unknown Kubernetes API Server credentials",
    "The provider cannot create the Kubernetes API client as there are no valid credentials specified. " ++
    "Statically set the value of either the token, or the username and password combination, in the configuration, or use the K8S_TOKEN, K8S_USERNAME and K8S_PASSWORD environment variables."⟩

/-- Diagnostic added when the merged host is empty. -/
def missingHost : Diagnostic :=
  ⟨Severity.error, some "host", "Missing Kubernetes API Server host",
    "The provider cannot create the Kubernetes API client as there is a missing or empty value for the API Server host. " ++
    "Set the endpoint value in the configuration or use the K8S_ENDPOINT environment variable. " ++
    "If either is already set, ensure the value is not empty."⟩

/-- Diagnostic added when the merged credentials are unusable. -/
def missingCredentials : Diagnostic :=
  ⟨Severity.error, none, "Missing Kubernetes API Server credentials",
    "The provider cannot create the Kubernetes API client as there is a missing or empty value for the API Server credentials. " ++
    "Set the token value, or a valid username/password combination in the configuration or use the K8S_TOKEN, " ++
    "K8S_USERNAME and K8S_PASSWORD environment variables. " ++
    "If either is already set, ensure the values are not empty."⟩

/-- The merge of one field (`provider.go` lines 119-138): the environment value,
overwritten by `ValueString()` of the static value whenever that is not null. -/
def merge (fromEnv : String) (static : TfString) : String :=
  if !static.IsNull then static.ValueString else fromEnv

/-- The guard of the first early return after decoding (lines 98-117), as a
predicate on the model: an unknown host, or an unknown token together with an
unknown username or password. -/
def unknownRejected (model : K8sProviderModel) : Bool :=
  model.Host.IsUnknown ||
    (model.Token.IsUnknown && (model.Username.IsUnknown || model.Password.IsUnknown))

/-- Method `K8sProvider.Configure`. `getDiags` are the diagnostics returned by
`request.Config.Get`, `model` the decoded provider model and `env` the process
environment. The response starts with an empty diagnostics collection. -/
def Configure (getDiags : Diagnostics) (model : K8sProviderModel) (env : Environment) :
    ConfigureResponse :=
  let d0 := Diagnostics.Append [] getDiags
  if d0.HasError then ⟨d0, none, none⟩ else
  let d1 := if model.Host.IsUnknown then
      d0.AddAttributeError "host" unknownHost.summary unknownHost.detail else d0
  let d2 := if model.Token.IsUnknown && (model.Username.IsUnknown || model.Password.IsUnknown) then
      d1.AddError unknownCredentials.summary unknownCredentials.detail else d1
  if d2.HasError then ⟨d2, none, none⟩ else
  let host := merge env.K8S_HOST model.Host
  let token := merge env.K8S_TOKEN model.Token
  let username := merge env.K8S_USERNAME model.Username
  let password := merge env.K8S_PASSWORD model.Password
  let d3 := if host = "" then
      d2.AddAttributeError "host" missingHost.summary missingHost.detail else d2
  let d4 := if token = "" && (username = "" || password = "") then
      d3.AddError missingCredentials.summary missingCredentials.detail else d3
  if d4.HasError then ⟨d4, none, none⟩ else
  let configuration : K8sProviderConfiguration := ⟨host, token, username, password⟩
  ⟨d4, some configuration, some configuration⟩

/-- The configuration obtained by merging every field, whatever validation says. -/
def merged (model : K8sProviderModel) (env : Environment) : K8sProviderConfiguration :=
  ⟨merge env.K8S_HOST model.Host, merge env.K8S_TOKEN model.Token,
    merge env.K8S_USERNAME model.Username, merge env.K8S_PASSWORD model.Password⟩

/-- The validation condition of lines 150-158 on a merged configuration. -/
def credentialsMissing (c : K8sProviderConfiguration) : Bool :=
  c.Token = "" && (c.Username = "" || c.Password = "")

/-! ## crd_resource.go -/

/-- The framework type `types.Map` with string elements: null, unknown, or the known
entries (one per key). -/
inductive TfMap where
  | null : TfMap
  | unknown : TfMap
  | value (elems : List (String × TfString)) : TfMap
deriving DecidableEq, Repr

/-- Method `Elements()`: the entries of a known map, none for a null or unknown map. -/
def TfMap.Elements : TfMap → List (String × TfString)
  | TfMap.value elems => elems
  | _ => []

/-- A Go `map[string]string`, kept as an association list with one entry per key. -/
abbrev GoMap := List (String × String)

/-- The assignment `m[k] = v`: replaces the entry of `k` or adds one. -/
def GoMap.set : GoMap → String → String → GoMap
  | [], k, v => [(k, v)]
  | (k0, v0) :: rest, k, v =>
    if k0 = k then (k, v) :: rest else (k0, v0) :: GoMap.set rest k v

/-- A Go result `(value, err)`: a value, or the text of a non-nil error. -/
inductive GoResult (α : Type) where
  | ok (a : α) : GoResult α
  | err (msg : String) : GoResult α
deriving DecidableEq, Repr

/-- The resource data model. -/
structure CRDInstanceResourceModel where
  Attributes : TfMap
  Template : TfString
  Applied : TfString
  Id : TfString
deriving DecidableEq, Repr

/-- The resource: `configuration` is the pointer set by the resource's `Configure`,
`none` while the provider has not been configured (nil). -/
structure CRDInstanceResource where
  configuration : Option K8sProviderConfiguration
deriving DecidableEq, Repr

/-- An `*exec.Cmd` as built by `exec.Command(name, args...)`. -/
structure Command where
  name : String
  args : List String
deriving DecidableEq, Repr

/-- Path of the executable hard-coded in `createOrUpdate`. -/
def kubectl : String :=
  "/data/workspaces/gomods/terraform-provider-k8scrd/examples/kubectl/kubectl"

/-- The libraries and the operating system that `createOrUpdate`, `Create` and
`Update` call, for a template representation `T`:
* `Parse` is `template.New("crd").Parse`, `Execute` is `tmpl.Execute` into a fresh
  buffer, `Quote` is the `%q` formatting that `String()` of a known string element
  applies; `none` stands for an input on which the function is not modelled;
* `ToMapValue` is `model.Attributes.ToMapValue`, `StateSet` gives the diagnostics of
  `resp.State.Set`;
* `StdinPipe` gives the error of `cmd.StdinPipe()` (`none` when it succeeds) and
  `CombinedOutput` runs the command with the given document written to its standard
  input, returning its combined output or the error. -/
structure Externals (T : Type) where
  Parse : String → Option (GoResult T)
  Execute : T → GoMap → Option (GoResult String)
  Quote : String → Option String
  ToMapValue : TfMap → TfMap × Diagnostics
  StateSet : CRDInstanceResourceModel → Diagnostics
  StdinPipe : Command → Option String
  CombinedOutput : Command → String → GoResult String

/-- Method `String()` of a map element (`attr.Value` holding a `types.String`): the
framework renders a known value with `%q`, and null and unknown by fixed markers. -/
def TfString.String (quote : String → Option String) : TfString → Option String
  | TfString.value s => quote s
  | TfString.null => some "<null>"
  | TfString.unknown => some "<unknown>"

/-- The loop of lines 202-205: `attributes[key] = value.String()` for every element.
The keys of a map are distinct, so the order of iteration does not matter. -/
def collectAttributes (quote : String → Option String) :
    List (String × TfString) → GoMap → Option GoMap
  | [], attributes => some attributes
  | (key, value) :: rest, attributes =>
    match value.String quote with
    | none => none
    | some s => collectAttributes quote rest (attributes.set key s)

/-- The command selection of lines 219-224; `none` is the nil pointer left when
neither branch is taken. -/
def selectCommand (c : K8sProviderConfiguration) : Option Command :=
  if c.Token ≠ "" then
    some ⟨kubectl, ["apply", "--server", c.Host, "--token", c.Token, "--output", "json"]⟩
  else if c.Username ≠ "" ∧ c.Password ≠ "" then
    some ⟨kubectl, ["apply", "--server", c.Host, "--username", c.Username,
      "--password", c.Password, "--output", "json"]⟩
  else none

/-- The stages of `createOrUpdate`, in source order. -/
inductive Stage where
  | parse : Stage
  | convert : Stage
  | execute : Stage
  | stdinPipe : Stage
  | run : Stage
deriving DecidableEq, Repr

/-- What a call of `createOrUpdate` leaves behind: the model and the diagnostics sink
(both passed by pointer), the stages that were entered, the command that was run with
the document written to its standard input, and whether the call ended in a nil
pointer dereference. -/
structure Outcome where
  model : CRDInstanceResourceModel
  diagnostics : Diagnostics
  stages : List Stage
  sent : Option (Command × String)
  panicked : Bool
deriving DecidableEq, Repr

/-- Summary of both template diagnostics. -/
def templateSummary : String := "Invalid custom Resource Definition template."

/-- Lines 208-258 of `createOrUpdate`: execute the parsed template on the attributes,
select and run the command, and record the result in the model. `d` is the sink and
`s` the stages entered so far. -/
def executeAndApply {T : Type} (W : Externals T) (r : CRDInstanceResource)
    (model : CRDInstanceResourceModel) (d : Diagnostics) (s : List Stage)
    (tmpl : T) (attributes : GoMap) : Option Outcome :=
  match W.Execute tmpl attributes with
  | none => none
  | some (GoResult.err e) =>
    some ⟨model, d.AddError templateSummary
      ("The provided Custom Resource Definition template is not valid as it could not be parsed: " ++ e),
      s ++ [Stage.execute], none, false⟩
  | some (GoResult.ok buffer) =>
    match r.configuration with
    | none => some ⟨model, d, s ++ [Stage.execute], none, true⟩
    | some configuration =>
      match selectCommand configuration with
      | none => some ⟨model, d, s ++ [Stage.execute, Stage.stdinPipe], none, true⟩
      | some cmd =>
        match W.StdinPipe cmd with
        | some e =>
          some ⟨model, d.AddError "Error executing external kubectl command."
            ("The kubectl apply command could not be executed: " ++ e),
            s ++ [Stage.execute, Stage.stdinPipe], none, false⟩
        | none =>
          match W.CombinedOutput cmd buffer with
          | GoResult.err e =>
            some ⟨model, d.AddError "Error reading kubectl command output."
              ("The kubectl apply command\x27s output could not be read: " ++ e),
              s ++ [Stage.execute, Stage.stdinPipe, Stage.run], some (cmd, buffer), false⟩
          | GoResult.ok _ =>
            some ⟨{ model with Id := TfString.value "example-id",
                               Applied := TfString.value buffer },
              d, s ++ [Stage.execute, Stage.stdinPipe, Stage.run], some (cmd, buffer), false⟩

/-- Method `CRDInstanceResource.createOrUpdate` (lines 180-206, continued by
`executeAndApply`). The result is `none` only where `W` does not model the template
functions on the given input. -/
def createOrUpdate {T : Type} (W : Externals T) (r : CRDInstanceResource)
    (model : CRDInstanceResourceModel) (diagnostics : Diagnostics) : Option Outcome :=
  match W.Parse model.Template.ValueString with
  | none => none
  | some (GoResult.err e) =>
    some ⟨model, diagnostics.AddError templateSummary
      ("The provided Custom resource Definition template is not valid as it could not be parsed: " ++ e),
      [Stage.parse], none, false⟩
  | some (GoResult.ok tmpl) =>
    if !model.Template.IsNull then
      let d := diagnostics.Append (W.ToMapValue model.Attributes).2
      if d.HasError then some ⟨model, d, [Stage.parse, Stage.convert], none, false⟩
      else
        match collectAttributes W.Quote (W.ToMapValue model.Attributes).1.Elements [] with
        | none => none
        | some attributes =>
          executeAndApply W r model d [Stage.parse, Stage.convert] tmpl attributes
    else executeAndApply W r model diagnostics [Stage.parse] tmpl []

/-- The attribute map built by lines 194-206: empty when the template is null,
otherwise one entry per element of the converted attribute map. -/
def attributesOf {T : Type} (W : Externals T) (model : CRDInstanceResourceModel) :
    Option GoMap :=
  if !model.Template.IsNull then
    collectAttributes W.Quote (W.ToMapValue model.Attributes).1.Elements []
  else some []

/-- The sink after lines 194-206: the conversion diagnostics are appended unless the
template is null. -/
def convertedSink {T : Type} (W : Externals T) (model : CRDInstanceResourceModel)
    (sink : Diagnostics) : Diagnostics :=
  if !model.Template.IsNull then sink.Append (W.ToMapValue model.Attributes).2 else sink

/-- The stages entered once lines 184-206 are done. -/
def stagesBefore (model : CRDInstanceResourceModel) : List Stage :=
  if !model.Template.IsNull then [Stage.parse, Stage.convert] else [Stage.parse]

/-- The stages of a call that goes as far as `stage` and no further. -/
def throughStage (model : CRDInstanceResourceModel) : Stage → List Stage
  | Stage.parse => [Stage.parse]
  | Stage.convert => [Stage.parse, Stage.convert]
  | Stage.execute => stagesBefore model ++ [Stage.execute]
  | Stage.stdinPipe => stagesBefore model ++ [Stage.execute, Stage.stdinPipe]
  | Stage.run => stagesBefore model ++ [Stage.execute, Stage.stdinPipe, Stage.run]

/-- Every earlier stage of `createOrUpdate` succeeds on `model` and `stage` fails:
the template does not parse; the attribute conversion reports an error; executing the
template fails; `StdinPipe` of the selected command fails; running it fails. -/
def FailsAt {T : Type} (W : Externals T) (r : CRDInstanceResource)
    (model : CRDInstanceResourceModel) : Stage → Prop
  | Stage.parse => ∃ e, W.Parse model.Template.ValueString = some (GoResult.err e)
  | Stage.convert =>
    ∃ tmpl, W.Parse model.Template.ValueString = some (GoResult.ok tmpl) ∧
      model.Template.IsNull = false ∧ (W.ToMapValue model.Attributes).2.HasError = true
  | Stage.execute =>
    ∃ tmpl attributes e, W.Parse model.Template.ValueString = some (GoResult.ok tmpl) ∧
      (model.Template.IsNull = false → (W.ToMapValue model.Attributes).2.HasError = false) ∧
      attributesOf W model = some attributes ∧
      W.Execute tmpl attributes = some (GoResult.err e)
  | Stage.stdinPipe =>
    ∃ tmpl attributes buffer c cmd e, W.Parse model.Template.ValueString = some (GoResult.ok tmpl) ∧
      (model.Template.IsNull = false → (W.ToMapValue model.Attributes).2.HasError = false) ∧
      attributesOf W model = some attributes ∧
      W.Execute tmpl attributes = some (GoResult.ok buffer) ∧
      r.configuration = some c ∧ selectCommand c = some cmd ∧ W.StdinPipe cmd = some e
  | Stage.run =>
    ∃ tmpl attributes buffer c cmd e, W.Parse model.Template.ValueString = some (GoResult.ok tmpl) ∧
      (model.Template.IsNull = false → (W.ToMapValue model.Attributes).2.HasError = false) ∧
      attributesOf W model = some attributes ∧
      W.Execute tmpl attributes = some (GoResult.ok buffer) ∧
      r.configuration = some c ∧ selectCommand c = some cmd ∧ W.StdinPipe cmd = none ∧
      W.CombinedOutput cmd buffer = GoResult.err e

/-- What `Create` or `Update` leaves in its response: the diagnostics, the model
written by `resp.State.Set` (`none` when the state was not written), the command that
was run, and whether the call ended in a nil pointer dereference. -/
structure Response where
  Diagnostics : Diagnostics
  State : Option CRDInstanceResourceModel
  sent : Option (Command × String)
  panicked : Bool
deriving DecidableEq, Repr

/-- Method `CRDInstanceResource.Create`: `planDiags` are the diagnostics of `req.Plan.Get`
and `model` the decoded plan. `State.Set` writes the state unless it reports an
error. -/
def Create {T : Type} (W : Externals T) (r : CRDInstanceResource)
    (planDiags : Diagnostics) (model : CRDInstanceResourceModel) : Option Response :=
  let d0 := Diagnostics.Append [] planDiags
  if d0.HasError then some ⟨d0, none, none, false⟩ else
  match createOrUpdate W r model d0 with
  | none => none
  | some o =>
    if o.panicked then some ⟨o.diagnostics, none, o.sent, true⟩
    else if o.diagnostics.HasError then some ⟨o.diagnostics, none, o.sent, false⟩
    else
      let setDiags := W.StateSet o.model
      some ⟨o.diagnostics.Append setDiags,
        if setDiags.HasError then none else some o.model, o.sent, false⟩

/-- Method `CRDInstanceResource.Update`: the same steps as `Create`, on the planned model. -/
def Update {T : Type} (W : Externals T) (r : CRDInstanceResource)
    (planDiags : Diagnostics) (model : CRDInstanceResourceModel) : Option Response :=
  let d0 := Diagnostics.Append [] planDiags
  if d0.HasError then some ⟨d0, none, none, false⟩ else
  match createOrUpdate W r model d0 with
  | none => none
  | some o =>
    if o.panicked then some ⟨o.diagnostics, none, o.sent, true⟩
    else if o.diagnostics.HasError then some ⟨o.diagnostics, none, o.sent, false⟩
    else
      let setDiags := W.StateSet o.model
      some ⟨o.diagnostics.Append setDiags,
        if setDiags.HasError then none else some o.model, o.sent, false⟩

/-! ## A fragment of `text/template` and of `%q`

The template engine and the `%q` verb belong to the Go standard library. They are
modelled on a fragment: templates made of literal text and of actions that hold one
field of the data, written with optional blanks (space, tab) around it, and strings
of ASCII characters. Outside the fragment the model gives no answer. -/

/-- A node of a parsed template: literal text, or the action printing field `name`
of the data. -/
inductive Node where
  | text (s : List Char) : Node
  | field (name : List Char) : Node
deriving DecidableEq, Repr

/-- A parsed template of the fragment. -/
abbrev Template := List Node

/-- Position of the lexer: in text; in text just after a single left brace; inside an
action before the field; just after the dot; inside the field name; after the field
name; after the first right brace of the closing delimiter; or out of the fragment. -/
inductive Lex where
  | text (acc : List Char) : Lex
  | brace (acc : List Char) : Lex
  | action : Lex
  | dot : Lex
  | name (acc : List Char) : Lex
  | after (name : List Char) : Lex
  | closing (name : List Char) : Lex
  | outside : Lex
deriving DecidableEq, Repr

/-- Blanks skipped inside an action. -/
def isBlank (c : Char) : Bool := c = ' ' || c = '\t'

/-- First character of a field name: an ASCII letter or the underscore. -/
def isNameStart (c : Char) : Bool := c.isAlpha || c = '_'

/-- Further characters of a field name: ASCII letters, digits, the underscore. -/
def isNameChar (c : Char) : Bool := c.isAlphanum || c = '_'

/-- The text node for the characters gathered so far; empty text gives no node. -/
def textNode (acc : List Char) : List Node :=
  if acc = [] then [] else [Node.text acc]

/-- One character of input: the new position and the nodes completed so far. -/
def lexStep : Lex × List Node → Char → Lex × List Node
  | (Lex.text acc, nodes), c =>
    if c = '{' then (Lex.brace acc, nodes) else (Lex.text (acc ++ [c]), nodes)
  | (Lex.brace acc, nodes), c =>
    if c = '{' then (Lex.action, nodes ++ textNode acc)
    else (Lex.text (acc ++ ['{', c]), nodes)
  | (Lex.action, nodes), c =>
    if isBlank c then (Lex.action, nodes)
    else if c = '.' then (Lex.dot, nodes)
    else (Lex.outside, nodes)
  | (Lex.dot, nodes), c =>
    if isNameStart c then (Lex.name [c], nodes) else (Lex.outside, nodes)
  | (Lex.name acc, nodes), c =>
    if isNameChar c then (Lex.name (acc ++ [c]), nodes)
    else if isBlank c then (Lex.after acc, nodes)
    else if c = '}' then (Lex.closing acc, nodes)
    else (Lex.outside, nodes)
  | (Lex.after name, nodes), c =>
    if isBlank c then (Lex.after name, nodes)
    else if c = '}' then (Lex.closing name, nodes)
    else (Lex.outside, nodes)
  | (Lex.closing name, nodes), c =>
    if c = '}' then (Lex.text [], nodes ++ [Node.field name]) else (Lex.outside, nodes)
  | (Lex.outside, nodes), _ => (Lex.outside, nodes)

/-- The message of the parse error for an action that is still open at the end of
a template named `crd`: actions of the fragment hold no newline, so the line reported
is that of the end of the input. -/
def unclosedAction (input : List Char) : String :=
  "template: crd:" ++ toString (1 + input.count '\n') ++ ": unclosed action"

/-- The call `template.New("crd").Parse(text)` on the fragment. -/
def parseTemplate (text : String) : Option (GoResult Template) :=
  match text.data.foldl lexStep (Lex.text [], []) with
  | (Lex.text acc, nodes) => some (GoResult.ok (nodes ++ textNode acc))
  | (Lex.brace acc, nodes) => some (GoResult.ok (nodes ++ textNode (acc ++ ['{'])))
  | (Lex.action, _) => some (GoResult.err (unclosedAction text.data))
  | (Lex.name _, _) => some (GoResult.err (unclosedAction text.data))
  | (Lex.after _, _) => some (GoResult.err (unclosedAction text.data))
  | _ => none

/-- Executing one node on a `map[string]string`: text is copied; a field prints the
entry of its name, and `<no value>` when the map has no such key (the default
`missingkey` option). -/
def executeNode (data : GoMap) : Node → List Char
  | Node.text s => s
  | Node.field name =>
    match data.lookup (String.mk name) with
    | some v => v.data
    | none => "<no value>".data

/-- The call `tmpl.Execute(&buffer, attributes)` on the fragment: it never fails there. -/
def executeTemplate (tmpl : Template) (data : GoMap) : Option (GoResult String) :=
  some (GoResult.ok (String.mk ((tmpl.map (executeNode data)).flatten)))

/-- A hexadecimal digit, lower case. -/
def hexDigit (n : Nat) : Char :=
  if n < 10 then Char.ofNat (48 + n) else Char.ofNat (87 + n)

/-- The `%q` rendering of one ASCII character inside double quotes. -/
def quoteChar (c : Char) : Option (List Char) :=
  let n := c.toNat
  let bs := Char.ofNat 92
  if n = 34 ∨ n = 92 then some [bs, c]
  else if 32 ≤ n ∧ n < 127 then some [c]
  else if n = 7 then some [bs, 'a']
  else if n = 8 then some [bs, 'b']
  else if n = 12 then some [bs, 'f']
  else if n = 10 then some [bs, 'n']
  else if n = 13 then some [bs, 'r']
  else if n = 9 then some [bs, 't']
  else if n = 11 then some [bs, 'v']
  else if n < 32 ∨ n = 127 then some [bs, 'x', hexDigit (n / 16), hexDigit (n % 16)]
  else none

/-- The `%q` formatting of a string (`strconv.Quote`) on ASCII strings. -/
def quote (s : String) : Option String :=
  (s.data.mapM quoteChar).map
    (fun parts => String.mk ([Char.ofNat 34] ++ parts.flatten ++ [Char.ofNat 34]))

/-- The standard library on the fragment, the framework conversions (`ToMapValue` of
a map value returns the value itself without diagnostics, `State.Set` of a model of
the schema reports none), and an operating system described by `pipe` and `run`. -/
def goExternals (pipe : Command → Option String)
    (run : Command → String → GoResult String) : Externals Template :=
  { Parse := parseTemplate
    Execute := executeTemplate
    Quote := quote
    ToMapValue := fun m => (m, [])
    StateSet := fun _ => []
    StdinPipe := pipe
    CombinedOutput := run }

/-- An operating system in which the command starts and exits with `output`. -/
def succeeding (output : String) : Externals Template :=
  goExternals (fun _ => none) (fun _ _ => GoResult.ok output)

/-- The plan of the successful scenario: template `kind: Widget`, `name: .name` as an
action, attributes `name = alpha`, computed fields still unknown. -/
def widgetPlan : CRDInstanceResourceModel :=
  ⟨TfMap.value [("name", TfString.value "alpha")],
    TfString.value "kind: Widget\nname: \x7b\x7b.name\x7d\x7d\n",
    TfString.unknown, TfString.unknown⟩

/-- The template of `widgetPlan` once parsed. -/
def widgetTemplate : Template :=
  [Node.text "kind: Widget\nname: ".data, Node.field "name".data, Node.text "\n".data]

/-- The attribute map built from `widgetPlan`: the value in its `%q` form. -/
def widgetAttributes : GoMap := [("name", "\"alpha\"")]

/-- The document rendered from `widgetPlan`. -/
def widgetDocument : String := "kind: Widget\nname: \"alpha\"\n"

/-- The resource of the scenarios: host `https://k8s`, token `secret123`. -/
def tokenResource : CRDInstanceResource :=
  ⟨some ⟨"https://k8s", "secret123", "", ""⟩⟩

/-- The command selected for `tokenResource`. -/
def tokenCommand : Command :=
  ⟨kubectl, ["apply", "--server", "https://k8s", "--token", "secret123", "--output", "json"]⟩

/-- A model as `Update` receives it for a text-only template, with incoming id `abc`. -/
def incomingPlan : CRDInstanceResourceModel :=
  ⟨TfMap.null, TfString.value "kind: Widget\n", TfString.value "kind: Widget\n",
    TfString.value "abc"⟩

/-- The plan of the failing scenario: a template whose action is never closed. -/
def malformedPlan (attributes : TfMap) (applied id : TfString) : CRDInstanceResourceModel :=
  ⟨attributes, TfString.value "\x7b\x7b.name", applied, id⟩

/-- The diagnostic reported for the template of `malformedPlan`. -/
def unclosedActionDiagnostic : Diagnostic :=
  ⟨Severity.error, none, templateSummary,
    "The provided Custom resource Definition template is not valid as it could not be parsed: " ++
    "template: crd:1: unclosed action"⟩


end K8sCrd

namespace K8sCrd

/-! ## Diagnostics: auxiliary facts -/

theorem Diagnostics.not_mem_of_noError {ds : Diagnostics} {d : Diagnostic}
    (h : ds.HasError = false) (hd : d.severity = Severity.error) : d ∉ ds := by
  intro hm
  have : ds.HasError = true := by
    unfold Diagnostics.HasError
    rw [List.any_eq_true]
    exact ⟨d, hm, by simp [hd]⟩
  rw [h] at this
  exact Bool.noConfusion this

theorem Diagnostics.push_error {ds : Diagnostics} {d : Diagnostic}
    (h : ds.HasError = false) (hd : d.severity = Severity.error) :
    Diagnostics.push ds d = ds ++ [d] := by
  unfold Diagnostics.push
  rw [if_neg (Diagnostics.not_mem_of_noError h hd)]

theorem Diagnostics.hasError_append (ds es : Diagnostics) :
    Diagnostics.HasError (ds ++ es) = (ds.HasError || es.HasError) := by
  unfold Diagnostics.HasError
  exact List.any_append

theorem Diagnostics.hasError_single {d : Diagnostic} (hd : d.severity = Severity.error) :
    Diagnostics.HasError [d] = true := by
  simp [Diagnostics.HasError, hd]

theorem Diagnostics.mem_push {ds : Diagnostics} {d x : Diagnostic} :
    x ∈ Diagnostics.push ds d ↔ x ∈ ds ∨ x = d := by
  unfold Diagnostics.push
  by_cases h : d ∈ ds
  · rw [if_pos h]
    constructor
    · intro hx; exact Or.inl hx
    · rintro (hx | hx)
      · exact hx
      · rw [hx]; exact h
  · rw [if_neg h]
    simp

theorem Diagnostics.mem_Append {more ds : Diagnostics} {x : Diagnostic} :
    x ∈ Diagnostics.Append ds more ↔ x ∈ ds ∨ x ∈ more := by
  unfold Diagnostics.Append
  induction more generalizing ds with
  | nil => simp
  | cons d rest ih =>
    rw [List.foldl_cons, ih, Diagnostics.mem_push]
    simp only [List.mem_cons]
    tauto

theorem Diagnostics.hasError_iff {ds : Diagnostics} :
    ds.HasError = true ↔ ∃ d ∈ ds, d.severity = Severity.error := by
  unfold Diagnostics.HasError
  rw [List.any_eq_true]
  simp

theorem Diagnostics.hasError_Append (ds more : Diagnostics) :
    (Diagnostics.Append ds more).HasError = (ds.HasError || more.HasError) := by
  rw [Bool.eq_iff_iff, Bool.or_eq_true]
  simp only [Diagnostics.hasError_iff, Diagnostics.mem_Append]
  constructor
  · rintro ⟨d, hd | hd, he⟩
    · exact Or.inl ⟨d, hd, he⟩
    · exact Or.inr ⟨d, hd, he⟩
  · rintro (⟨d, hd, he⟩ | ⟨d, hd, he⟩)
    · exact ⟨d, Or.inl hd, he⟩
    · exact ⟨d, Or.inr hd, he⟩

/-- Entries of `ds` stay a leading part of `Append ds more`. -/
theorem Diagnostics.Append_extends (more ds : Diagnostics) :
    ∃ added, Diagnostics.Append ds more = ds ++ added ∧ ∀ x ∈ added, x ∈ more := by
  unfold Diagnostics.Append
  induction more generalizing ds with
  | nil => exact ⟨[], by simp, by simp⟩
  | cons d rest ih =>
    rw [List.foldl_cons]
    obtain ⟨added, h1, h2⟩ := ih (Diagnostics.push ds d)
    unfold Diagnostics.push at h1 ⊢
    by_cases h : d ∈ ds
    · rw [if_pos h] at h1 ⊢
      exact ⟨added, h1, fun x hx => List.mem_cons_of_mem _ (h2 x hx)⟩
    · rw [if_neg h] at h1 ⊢
      refine ⟨d :: added, by rw [h1]; simp, ?_⟩
      intro x hx
      rcases List.mem_cons.mp hx with hx | hx
      · rw [hx]; exact List.mem_cons_self _ _
      · exact List.mem_cons_of_mem _ (h2 x hx)

/-! ## Configure: the two regimes -/

/-- When decoding reports no error and the unknown check rejects the model, `Configure`
returns the decoding diagnostics followed by the applicable `Unknown ...` entries. -/
theorem Configure_rejected (getDiags : Diagnostics) (model : K8sProviderModel)
    (env : Environment) (hget : (Diagnostics.Append [] getDiags).HasError = false)
    (hrej : unknownRejected model = true) :
    Configure getDiags model env =
      ⟨Diagnostics.Append [] getDiags
          ++ (if model.Host.IsUnknown then [unknownHost] else [])
          ++ (if model.Token.IsUnknown && (model.Username.IsUnknown || model.Password.IsUnknown)
                then [unknownCredentials] else []),
        none, none⟩ := by
  unfold Configure
  generalize Diagnostics.Append [] getDiags = base at hget ⊢
  have hH : Diagnostics.push base
      ⟨Severity.error, some "host", unknownHost.summary, unknownHost.detail⟩
      = base ++ [unknownHost] := Diagnostics.push_error hget rfl
  have hC : Diagnostics.push base
      ⟨Severity.error, none, unknownCredentials.summary, unknownCredentials.detail⟩
      = base ++ [unknownCredentials] := Diagnostics.push_error hget rfl
  have hHC : Diagnostics.push (base ++ [unknownHost])
      ⟨Severity.error, none, unknownCredentials.summary, unknownCredentials.detail⟩
      = base ++ [unknownHost] ++ [unknownCredentials] := by
    unfold Diagnostics.push
    rw [if_neg]
    · rfl
    · intro hm
      rcases List.mem_append.mp hm with hm | hm
      · exact Diagnostics.not_mem_of_noError hget rfl hm
      · revert hm; decide
  have e1 : Diagnostics.HasError (base ++ [unknownHost]) = true := by
    rw [Diagnostics.hasError_append, Diagnostics.hasError_single rfl, Bool.or_true]
  have e2 : Diagnostics.HasError (base ++ [unknownCredentials]) = true := by
    rw [Diagnostics.hasError_append, Diagnostics.hasError_single rfl, Bool.or_true]
  have e3 : Diagnostics.HasError (base ++ [unknownHost] ++ [unknownCredentials]) = true := by
    rw [Diagnostics.hasError_append, Diagnostics.hasError_single rfl, Bool.or_true]
  have e4 : Diagnostics.HasError (base ++ [unknownHost, unknownCredentials]) = true := by
    rw [Diagnostics.hasError_append]
    simp [Diagnostics.HasError, unknownHost]
  unfold unknownRejected at hrej
  simp only [hget, Bool.false_eq_true, if_false, Diagnostics.AddAttributeError,
    Diagnostics.AddError]
  cases hh : model.Host.IsUnknown <;>
    cases hc : (model.Token.IsUnknown && (model.Username.IsUnknown || model.Password.IsUnknown)) <;>
    simp only [hh, hc, Bool.or_self, Bool.false_eq_true] at hrej <;>
    simp [hH, hC, hHC, e1, e2, e3, e4]

/-- When decoding reports no error and the unknown check passes, `Configure` merges
the four fields, adds the applicable `Missing ...` entries, and hands out the merged
configuration exactly when none was added. -/
theorem Configure_validated (getDiags : Diagnostics) (model : K8sProviderModel)
    (env : Environment) (hget : (Diagnostics.Append [] getDiags).HasError = false)
    (hrej : unknownRejected model = false) :
    Configure getDiags model env =
      ⟨Diagnostics.Append [] getDiags
          ++ (if (merged model env).Host = "" then [missingHost] else [])
          ++ (if credentialsMissing (merged model env) then [missingCredentials] else []),
        if (merged model env).Host = "" ∨ credentialsMissing (merged model env) = true
          then none else some (merged model env),
        if (merged model env).Host = "" ∨ credentialsMissing (merged model env) = true
          then none else some (merged model env)⟩ := by
  unfold Configure
  generalize Diagnostics.Append [] getDiags = base at hget ⊢
  have hH : Diagnostics.push base
      ⟨Severity.error, some "host", missingHost.summary, missingHost.detail⟩
      = base ++ [missingHost] := Diagnostics.push_error hget rfl
  have hC : Diagnostics.push base
      ⟨Severity.error, none, missingCredentials.summary, missingCredentials.detail⟩
      = base ++ [missingCredentials] := Diagnostics.push_error hget rfl
  have hHC : Diagnostics.push (base ++ [missingHost])
      ⟨Severity.error, none, missingCredentials.summary, missingCredentials.detail⟩
      = base ++ [missingHost] ++ [missingCredentials] := by
    unfold Diagnostics.push
    rw [if_neg]
    · rfl
    · intro hm
      rcases List.mem_append.mp hm with hm | hm
      · exact Diagnostics.not_mem_of_noError hget rfl hm
      · revert hm; decide
  have e1 : Diagnostics.HasError (base ++ [missingHost]) = true := by
    rw [Diagnostics.hasError_append, Diagnostics.hasError_single rfl, Bool.or_true]
  have e2 : Diagnostics.HasError (base ++ [missingCredentials]) = true := by
    rw [Diagnostics.hasError_append, Diagnostics.hasError_single rfl, Bool.or_true]
  have e3 : Diagnostics.HasError (base ++ [missingHost] ++ [missingCredentials]) = true := by
    rw [Diagnostics.hasError_append, Diagnostics.hasError_single rfl, Bool.or_true]
  have e4 : Diagnostics.HasError (base ++ [missingHost, missingCredentials]) = true := by
    rw [Diagnostics.hasError_append]
    simp [Diagnostics.HasError, missingHost]
  unfold unknownRejected at hrej
  rw [Bool.or_eq_false_iff] at hrej
  obtain ⟨hh, hc⟩ := hrej
  simp only [hget, hh, hc, Bool.false_eq_true, if_false, Diagnostics.AddAttributeError,
    Diagnostics.AddError, merged, credentialsMissing]
  by_cases h1 : merge env.K8S_HOST model.Host = "" <;>
    by_cases h2 : (decide (merge env.K8S_TOKEN model.Token = "") &&
      (decide (merge env.K8S_USERNAME model.Username = "") ||
        decide (merge env.K8S_PASSWORD model.Password = ""))) = true <;>
    simp only [h1, h2, hH, hC, hHC, e1, e2, e3, e4, hget, if_true, if_false, or_true, or_false,
      true_or, false_or, Bool.false_eq_true, List.append_nil, not_false_eq_true]

/-- When decoding reports an error, `Configure` returns at once. -/
theorem Configure_undecoded (getDiags : Diagnostics) (model : K8sProviderModel)
    (env : Environment) (hget : (Diagnostics.Append [] getDiags).HasError = true) :
    Configure getDiags model env = ⟨Diagnostics.Append [] getDiags, none, none⟩ := by
  unfold Configure
  simp only [hget, if_true]

theorem merge_value (fromEnv s : String) : merge fromEnv (TfString.value s) = s := rfl

theorem merge_null (fromEnv : String) : merge fromEnv TfString.null = fromEnv := rfl

theorem merge_unknown (fromEnv : String) : merge fromEnv TfString.unknown = "" := rfl

theorem merge_eq_empty (fromEnv : String) (static : TfString)
    (hs : static.ValueString = "") (he : fromEnv = "") : merge fromEnv static = "" := by
  cases static with
  | null => rw [merge_null]; exact he
  | unknown => rfl
  | value s => rw [merge_value]; exact hs

theorem known_of_merge_ne (fromEnv : String) (static : TfString)
    (h : merge fromEnv static ≠ "") : static.IsUnknown = false := by
  cases static with
  | null => rfl
  | unknown => exact absurd rfl h
  | value s => rfl

/-- A configuration handed out by `Configure` is the merged one, and it passed
decoding, the unknown check and both validations. -/
theorem Configure_some (getDiags : Diagnostics) (model : K8sProviderModel)
    (env : Environment) (c : K8sProviderConfiguration)
    (h : (Configure getDiags model env).ResourceData = some c) :
    (Diagnostics.Append [] getDiags).HasError = false ∧ unknownRejected model = false ∧
      c = merged model env ∧ c.Host ≠ "" ∧ credentialsMissing c = false := by
  cases hget : (Diagnostics.Append [] getDiags).HasError with
  | true =>
    rw [Configure_undecoded getDiags model env hget] at h
    exact Option.noConfusion h
  | false =>
    cases hrej : unknownRejected model with
    | true =>
      rw [Configure_rejected getDiags model env hget hrej] at h
      exact Option.noConfusion h
    | false =>
      rw [Configure_validated getDiags model env hget hrej] at h
      by_cases hc : (merged model env).Host = "" ∨ credentialsMissing (merged model env) = true
      · rw [if_pos hc] at h
        exact Option.noConfusion h
      · rw [if_neg hc] at h
        have hcm : c = merged model env := (Option.some.inj h).symm
        rw [hcm]
        refine ⟨rfl, rfl, rfl, fun h0 => hc (Or.inl h0), ?_⟩
        cases hm : credentialsMissing (merged model env) with
        | true => exact absurd (Or.inr hm) hc
        | false => rfl

/-- Both data fields of the response always hold the same value. -/
theorem Configure_data_eq (getDiags : Diagnostics) (model : K8sProviderModel)
    (env : Environment) :
    (Configure getDiags model env).DataSourceData = (Configure getDiags model env).ResourceData := by
  cases hget : (Diagnostics.Append [] getDiags).HasError with
  | true => rw [Configure_undecoded getDiags model env hget]
  | false =>
    cases hrej : unknownRejected model with
    | true => rw [Configure_rejected getDiags model env hget hrej]
    | false => rw [Configure_validated getDiags model env hget hrej]

/-- The condition `credentialsMissing` spelled out. -/
theorem credentialsMissing_iff (c : K8sProviderConfiguration) :
    credentialsMissing c = true ↔ c.Token = "" ∧ (c.Username = "" ∨ c.Password = "") := by
  unfold credentialsMissing
  simp

/-! ## Configure: the claims -/

/-- C1. Credential precedence in `Configure`, for a decoded model whose merged host is
not empty. A known static token wins over `K8S_TOKEN`: any configuration handed out
carries the static token, and one is handed out when that token is not empty. A null
static token with a non-empty `K8S_TOKEN` yields a configuration carrying the
environment token. When the unknown check passes and neither source gives a non-empty
token, nor a non-empty username together with a non-empty password, the only entry
added is `Missing Kubernetes API Server credentials` and no configuration is handed
out. -/
theorem configure_credential_precedence (getDiags : Diagnostics) (model : K8sProviderModel)
    (env : Environment) (hget : (Diagnostics.Append [] getDiags).HasError = false)
    (hhost : merge env.K8S_HOST model.Host ≠ "") :
    (∀ s, model.Token = TfString.value s → env.K8S_TOKEN ≠ "" →
      (∀ c, (Configure getDiags model env).ResourceData = some c → c.Token = s) ∧
      (s ≠ "" → ∃ c, (Configure getDiags model env).ResourceData = some c ∧
        (Configure getDiags model env).DataSourceData = some c ∧ c.Token = s)) ∧
    (model.Token = TfString.null → env.K8S_TOKEN ≠ "" →
      ∃ c, (Configure getDiags model env).ResourceData = some c ∧
        (Configure getDiags model env).DataSourceData = some c ∧ c.Token = env.K8S_TOKEN) ∧
    (unknownRejected model = false →
      model.Token.ValueString = "" → env.K8S_TOKEN = "" →
      ((model.Username.ValueString = "" ∧ env.K8S_USERNAME = "") ∨
        (model.Password.ValueString = "" ∧ env.K8S_PASSWORD = "")) →
      (Configure getDiags model env).Diagnostics
          = Diagnostics.Append [] getDiags ++ [missingCredentials] ∧
        (Configure getDiags model env).ResourceData = none ∧
        (Configure getDiags model env).DataSourceData = none) := by
  have hHu : model.Host.IsUnknown = false := known_of_merge_ne _ _ hhost
  have hH : ¬ (merged model env).Host = "" := hhost
  refine ⟨?_, ?_, ?_⟩
  · intro s hs _
    have hrej : unknownRejected model = false := by
      unfold unknownRejected
      rw [hHu, hs]
      rfl
    have hT : (merged model env).Token = s := by
      show merge env.K8S_TOKEN model.Token = s
      rw [hs, merge_value]
    refine ⟨?_, ?_⟩
    · intro c hc
      rw [(Configure_some getDiags model env c hc).2.2.1]
      exact hT
    · intro hne
      have hcm : credentialsMissing (merged model env) = false := by
        unfold credentialsMissing
        rw [hT]
        simp [hne]
      rw [Configure_validated getDiags model env hget hrej]
      refine ⟨merged model env, ?_, ?_, hT⟩ <;> simp [hH, hcm]
  · intro hs hne
    have hrej : unknownRejected model = false := by
      unfold unknownRejected
      rw [hHu, hs]
      rfl
    have hT : (merged model env).Token = env.K8S_TOKEN := by
      show merge env.K8S_TOKEN model.Token = env.K8S_TOKEN
      rw [hs, merge_null]
    have hcm : credentialsMissing (merged model env) = false := by
      unfold credentialsMissing
      rw [hT]
      simp [hne]
    rw [Configure_validated getDiags model env hget hrej]
    refine ⟨merged model env, ?_, ?_, hT⟩ <;> simp [hH, hcm]
  · intro hrej hts hte hpair
    have hT : (merged model env).Token = "" := merge_eq_empty _ _ hts hte
    have hcm : credentialsMissing (merged model env) = true := by
      rw [credentialsMissing_iff]
      refine ⟨hT, ?_⟩
      rcases hpair with ⟨h1, h2⟩ | ⟨h1, h2⟩
      · exact Or.inl (merge_eq_empty _ _ h1 h2)
      · exact Or.inr (merge_eq_empty _ _ h1 h2)
    rw [Configure_validated getDiags model env hget hrej]
    simp [hH, hcm]

/-- C1, at concrete inputs: static token `st` against `K8S_TOKEN = et`; a null static
token with `K8S_TOKEN = et`; and no credentials at all. -/
theorem configure_credential_precedence_witness :
    (∃ c, (Configure [] ⟨TfString.value "h", TfString.value "st", TfString.null, TfString.null⟩
        ⟨"", "et", "", ""⟩).ResourceData = some c ∧
      (Configure [] ⟨TfString.value "h", TfString.value "st", TfString.null, TfString.null⟩
        ⟨"", "et", "", ""⟩).DataSourceData = some c ∧ c.Token = "st") ∧
    (∃ c, (Configure [] ⟨TfString.value "h", TfString.null, TfString.null, TfString.null⟩
        ⟨"", "et", "", ""⟩).ResourceData = some c ∧
      (Configure [] ⟨TfString.value "h", TfString.null, TfString.null, TfString.null⟩
        ⟨"", "et", "", ""⟩).DataSourceData = some c ∧ c.Token = "et") ∧
    ((Configure [] ⟨TfString.value "h", TfString.null, TfString.null, TfString.null⟩
        ⟨"", "", "", ""⟩).Diagnostics = [missingCredentials] ∧
      (Configure [] ⟨TfString.value "h", TfString.null, TfString.null, TfString.null⟩
        ⟨"", "", "", ""⟩).ResourceData = none ∧
      (Configure [] ⟨TfString.value "h", TfString.null, TfString.null, TfString.null⟩
        ⟨"", "", "", ""⟩).DataSourceData = none) :=
  ⟨((configure_credential_precedence []
      ⟨TfString.value "h", TfString.value "st", TfString.null, TfString.null⟩
      ⟨"", "et", "", ""⟩ (by decide) (by decide)).1 "st" rfl (by decide)).2 (by decide),
   (configure_credential_precedence []
      ⟨TfString.value "h", TfString.null, TfString.null, TfString.null⟩
      ⟨"", "et", "", ""⟩ (by decide) (by decide)).2.1 rfl (by decide),
   (configure_credential_precedence []
      ⟨TfString.value "h", TfString.null, TfString.null, TfString.null⟩
      ⟨"", "", "", ""⟩ (by decide) (by decide)).2.2 (by decide) (by decide) (by decide)
      (Or.inl ⟨by decide, by decide⟩)⟩

/-- C2. Validation in `Configure`, for a decoded model that passes the unknown check
(in particular every model whose static values are null or known): the `Missing host`
entry is present exactly when the merged host is empty; the `Missing credentials`
entry exactly when the merged token is empty and the merged username or password is
empty; both are reported, in this order, when both conditions hold; a configuration is
handed out exactly when neither entry is present, it is the merged one, and it never
comes together with an error. -/
theorem configure_validation (getDiags : Diagnostics) (model : K8sProviderModel)
    (env : Environment) (hget : (Diagnostics.Append [] getDiags).HasError = false)
    (hknown : unknownRejected model = false) :
    (missingHost ∈ (Configure getDiags model env).Diagnostics
      ↔ (merged model env).Host = "") ∧
    (missingCredentials ∈ (Configure getDiags model env).Diagnostics
      ↔ (merged model env).Token = "" ∧
          ((merged model env).Username = "" ∨ (merged model env).Password = "")) ∧
    ((merged model env).Host = "" →
      (merged model env).Token = "" ∧
          ((merged model env).Username = "" ∨ (merged model env).Password = "") →
      (Configure getDiags model env).Diagnostics
        = Diagnostics.Append [] getDiags ++ [missingHost, missingCredentials]) ∧
    ((missingHost ∉ (Configure getDiags model env).Diagnostics ∧
        missingCredentials ∉ (Configure getDiags model env).Diagnostics)
      ↔ (Configure getDiags model env).ResourceData = some (merged model env) ∧
        (Configure getDiags model env).DataSourceData = some (merged model env)) ∧
    (∀ c, (Configure getDiags model env).ResourceData = some c ∨
        (Configure getDiags model env).DataSourceData = some c →
      c = merged model env ∧ (Configure getDiags model env).Diagnostics.HasError = false) ∧
    ((Configure getDiags model env).Diagnostics.HasError = true →
      (Configure getDiags model env).ResourceData = none ∧
      (Configure getDiags model env).DataSourceData = none) := by
  rw [Configure_validated getDiags model env hget hknown]
  have nH : missingHost ∉ Diagnostics.Append [] getDiags :=
    Diagnostics.not_mem_of_noError hget rfl
  have nC : missingCredentials ∉ Diagnostics.Append [] getDiags :=
    Diagnostics.not_mem_of_noError hget rfl
  have hne : missingHost ≠ missingCredentials := by decide
  have hne' : missingCredentials ≠ missingHost := by decide
  have eH : Diagnostics.HasError [missingHost] = true := rfl
  have eC : Diagnostics.HasError [missingCredentials] = true := rfl
  have eN : Diagnostics.HasError [] = false := rfl
  rw [← credentialsMissing_iff]
  generalize Diagnostics.Append [] getDiags = base at hget nH nC ⊢
  by_cases h1 : (merged model env).Host = "" <;>
    cases h2 : credentialsMissing (merged model env) <;>
    simp [h1, h2, nH, nC, hne, hne', hget, Diagnostics.hasError_append, eH, eC, eN]

/-- C2, at a concrete input with an empty host and no credentials. -/
theorem configure_validation_witness :
    (Configure [] ⟨TfString.null, TfString.value "", TfString.null, TfString.value "p"⟩
        ⟨"", "t", "", ""⟩).Diagnostics = [missingHost, missingCredentials] :=
  (configure_validation [] ⟨TfString.null, TfString.value "", TfString.null, TfString.value "p"⟩
    ⟨"", "t", "", ""⟩ (by decide) (by decide)).2.2.1 (by decide) (by decide)

/-- C3, refuted as stated: with the static token unknown and username and password
statically known, the check passes, yet the merged token is empty instead of the value
of `K8S_TOKEN`; the same input with a null token keeps the environment token. -/
theorem unknown_token_discards_environment :
    unknownRejected ⟨TfString.value "h", TfString.unknown, TfString.value "u", TfString.value "p"⟩
      = false ∧
    Configure [] ⟨TfString.value "h", TfString.unknown, TfString.value "u", TfString.value "p"⟩
      ⟨"", "envtok", "", ""⟩ = ⟨[], some ⟨"h", "", "u", "p"⟩, some ⟨"h", "", "u", "p"⟩⟩ ∧
    merge "envtok" TfString.unknown ≠ "envtok" ∧
    Configure [] ⟨TfString.value "h", TfString.null, TfString.value "u", TfString.value "p"⟩
      ⟨"", "envtok", "", ""⟩
      = ⟨[], some ⟨"h", "envtok", "u", "p"⟩, some ⟨"h", "envtok", "u", "p"⟩⟩ := by
  decide

/-- C3, amended. A static field that is unknown overwrites the environment value with
the empty string, as every non-null static value overwrites it with its
`ValueString()`; only a null static field leaves the environment value in place. So
for a decoded model that passes the unknown check and whose static token is unknown,
the merged token is empty whatever `K8S_TOKEN` holds, username and password are not
unknown, and the configuration handed out (there is one when the merged host, username
and password are not empty) carries the empty token. -/
theorem unknown_field_overwrites (getDiags : Diagnostics) (model : K8sProviderModel)
    (env : Environment) (hget : (Diagnostics.Append [] getDiags).HasError = false)
    (hpass : unknownRejected model = false) (htok : model.Token = TfString.unknown) :
    (∀ fromEnv static, static.IsNull = false → merge fromEnv static = static.ValueString) ∧
    (∀ fromEnv, merge fromEnv TfString.null = fromEnv) ∧
    (merged model env).Token = "" ∧
    model.Username.IsUnknown = false ∧ model.Password.IsUnknown = false ∧
    (∀ c, (Configure getDiags model env).ResourceData = some c → c.Token = "") ∧
    ((merged model env).Host ≠ "" → (merged model env).Username ≠ "" →
      (merged model env).Password ≠ "" →
      (Configure getDiags model env).ResourceData = some (merged model env)) := by
  have hT : (merged model env).Token = "" := by
    show merge env.K8S_TOKEN model.Token = ""
    rw [htok, merge_unknown]
  unfold unknownRejected at hpass
  rw [htok, Bool.or_eq_false_iff] at hpass
  have hup : (model.Username.IsUnknown || model.Password.IsUnknown) = false := by
    simpa [TfString.IsUnknown] using hpass.2
  rw [Bool.or_eq_false_iff] at hup
  refine ⟨?_, merge_null, hT, hup.1, hup.2, ?_, ?_⟩
  · intro fromEnv static hs
    unfold merge
    simp [hs]
  · intro c hc
    rw [(Configure_some getDiags model env c hc).2.2.1]
    exact hT
  · intro h1 h2 h3
    have hrej : unknownRejected model = false := by
      unfold unknownRejected
      rw [htok, hpass.1, hup.1, hup.2]
      rfl
    have hcm : credentialsMissing (merged model env) = false := by
      unfold credentialsMissing
      simp [h2, h3]
    rw [Configure_validated getDiags model env hget hrej]
    simp [h1, hcm]

/-- C3 amended, at the input of the counterexample. -/
theorem unknown_field_overwrites_witness :
    (merged ⟨TfString.value "h", TfString.unknown, TfString.value "u", TfString.value "p"⟩
      ⟨"", "envtok", "", ""⟩).Token = "" ∧
    (Configure [] ⟨TfString.value "h", TfString.unknown, TfString.value "u", TfString.value "p"⟩
      ⟨"", "envtok", "", ""⟩).ResourceData
      = some (merged ⟨TfString.value "h", TfString.unknown, TfString.value "u", TfString.value "p"⟩
          ⟨"", "envtok", "", ""⟩) :=
  ⟨(unknown_field_overwrites []
      ⟨TfString.value "h", TfString.unknown, TfString.value "u", TfString.value "p"⟩
      ⟨"", "envtok", "", ""⟩ (by decide) (by decide) rfl).2.2.1,
   (unknown_field_overwrites []
      ⟨TfString.value "h", TfString.unknown, TfString.value "u", TfString.value "p"⟩
      ⟨"", "envtok", "", ""⟩ (by decide) (by decide) rfl).2.2.2.2.2.2
      (by decide) (by decide) (by decide)⟩

/-- C4. For a decoded model whose static host is unknown, or whose static token is
unknown together with an unknown username or password, `Configure` stops before
merging: the diagnostics are the decoding ones followed by the applicable
`Unknown ...` entries and nothing else, at least one of those is present, no
`Missing ...` entry is present, no configuration is handed out, and the environment
has no influence on the response. -/
theorem configure_unknown_rejected (getDiags : Diagnostics) (model : K8sProviderModel)
    (env : Environment) (hget : (Diagnostics.Append [] getDiags).HasError = false)
    (hunk : model.Host.IsUnknown = true ∨
      (model.Token.IsUnknown = true ∧
        (model.Username.IsUnknown = true ∨ model.Password.IsUnknown = true))) :
    (Configure getDiags model env).Diagnostics
      = Diagnostics.Append [] getDiags
          ++ (if model.Host.IsUnknown then [unknownHost] else [])
          ++ (if model.Token.IsUnknown && (model.Username.IsUnknown || model.Password.IsUnknown)
                then [unknownCredentials] else []) ∧
    (unknownHost ∈ (Configure getDiags model env).Diagnostics ∨
      unknownCredentials ∈ (Configure getDiags model env).Diagnostics) ∧
    missingHost ∉ (Configure getDiags model env).Diagnostics ∧
    missingCredentials ∉ (Configure getDiags model env).Diagnostics ∧
    (Configure getDiags model env).ResourceData = none ∧
    (Configure getDiags model env).DataSourceData = none ∧
    (∀ env', Configure getDiags model env' = Configure getDiags model env) := by
  have hrej : unknownRejected model = true := by
    unfold unknownRejected
    rcases hunk with h | ⟨h1, h2 | h2⟩ <;> simp [*]
  have nH : missingHost ∉ Diagnostics.Append [] getDiags :=
    Diagnostics.not_mem_of_noError hget rfl
  have nC : missingCredentials ∉ Diagnostics.Append [] getDiags :=
    Diagnostics.not_mem_of_noError hget rfl
  have d1 : missingHost ≠ unknownHost := by decide
  have d2 : missingHost ≠ unknownCredentials := by decide
  have d3 : missingCredentials ≠ unknownHost := by decide
  have d4 : missingCredentials ≠ unknownCredentials := by decide
  refine ⟨?_, ?_, ?_, ?_, ?_, ?_, ?_⟩
  · rw [Configure_rejected getDiags model env hget hrej]
  · rw [Configure_rejected getDiags model env hget hrej]
    rcases hunk with h | ⟨h1, h2 | h2⟩ <;> simp [*]
  · rw [Configure_rejected getDiags model env hget hrej]
    simp only [List.mem_append, not_or]
    refine ⟨⟨nH, ?_⟩, ?_⟩ <;> split <;> simp [d1, d2]
  · rw [Configure_rejected getDiags model env hget hrej]
    simp only [List.mem_append, not_or]
    refine ⟨⟨nC, ?_⟩, ?_⟩ <;> split <;> simp [d3, d4]
  · rw [Configure_rejected getDiags model env hget hrej]
  · rw [Configure_rejected getDiags model env hget hrej]
  · intro env'
    rw [Configure_rejected getDiags model env hget hrej,
      Configure_rejected getDiags model env' hget hrej]

/-- C4, at a concrete input: everything unknown, every environment variable set. -/
theorem configure_unknown_rejected_witness :
    (Configure [] ⟨TfString.unknown, TfString.unknown, TfString.unknown, TfString.value "p"⟩
      ⟨"h", "t", "u", "p"⟩).Diagnostics = [unknownHost, unknownCredentials] :=
  (configure_unknown_rejected []
    ⟨TfString.unknown, TfString.unknown, TfString.unknown, TfString.value "p"⟩
    ⟨"h", "t", "u", "p"⟩ (by decide) (Or.inl rfl)).1

/-- C5, refuted as stated: a static token together with a static username and password
gives a configuration in which both credential modes are usable at once. -/
theorem both_credential_modes_usable :
    ∃ c, (Configure [] ⟨TfString.value "h", TfString.value "t", TfString.value "u",
        TfString.value "p"⟩ ⟨"", "", "", ""⟩).ResourceData = some c ∧
      c.Token ≠ "" ∧ c.Username ≠ "" ∧ c.Password ≠ "" :=
  ⟨⟨"h", "t", "u", "p"⟩, by decide, by decide, by decide, by decide⟩

/-- C5, amended. Every configuration that `Configure` hands out has a non-empty host
and at least one usable credential mode: its token is not empty, or its username and
password are both not empty (possibly both modes at once). -/
theorem configured_has_usable_credentials (getDiags : Diagnostics) (model : K8sProviderModel)
    (env : Environment) (c : K8sProviderConfiguration)
    (h : (Configure getDiags model env).ResourceData = some c ∨
      (Configure getDiags model env).DataSourceData = some c) :
    (Configure getDiags model env).ResourceData = some c ∧
    (Configure getDiags model env).DataSourceData = some c ∧
    c.Host ≠ "" ∧ (c.Token ≠ "" ∨ (c.Username ≠ "" ∧ c.Password ≠ "")) := by
  have hR : (Configure getDiags model env).ResourceData = some c := by
    rcases h with h | h
    · exact h
    · rw [← Configure_data_eq]; exact h
  obtain ⟨_, _, _, hH, hM⟩ := Configure_some getDiags model env c hR
  refine ⟨hR, by rw [Configure_data_eq]; exact hR, hH, ?_⟩
  by_cases ht : c.Token = ""
  · right
    have hnot : ¬ (c.Token = "" ∧ (c.Username = "" ∨ c.Password = "")) := by
      rw [← credentialsMissing_iff, hM]
      exact Bool.noConfusion
    constructor
    · intro hu; exact hnot ⟨ht, Or.inl hu⟩
    · intro hp; exact hnot ⟨ht, Or.inr hp⟩
  · exact Or.inl ht

/-- C5 amended, at the input of the counterexample. -/
theorem configured_has_usable_credentials_witness :
    (Configure [] ⟨TfString.value "h", TfString.value "t", TfString.value "u",
        TfString.value "p"⟩ ⟨"", "", "", ""⟩).ResourceData = some ⟨"h", "t", "u", "p"⟩ ∧
    (Configure [] ⟨TfString.value "h", TfString.value "t", TfString.value "u",
        TfString.value "p"⟩ ⟨"", "", "", ""⟩).DataSourceData = some ⟨"h", "t", "u", "p"⟩ ∧
    (⟨"h", "t", "u", "p"⟩ : K8sProviderConfiguration).Host ≠ "" ∧
    ((⟨"h", "t", "u", "p"⟩ : K8sProviderConfiguration).Token ≠ "" ∨
      ((⟨"h", "t", "u", "p"⟩ : K8sProviderConfiguration).Username ≠ "" ∧
        (⟨"h", "t", "u", "p"⟩ : K8sProviderConfiguration).Password ≠ "")) :=
  configured_has_usable_credentials [] ⟨TfString.value "h", TfString.value "t",
    TfString.value "u", TfString.value "p"⟩ ⟨"", "", "", ""⟩ ⟨"h", "t", "u", "p"⟩
    (Or.inl (by decide))

/-! ## createOrUpdate: auxiliary facts -/

theorem Diagnostics.hasError_push_error (ds : Diagnostics) {d : Diagnostic}
    (hd : d.severity = Severity.error) : (Diagnostics.push ds d).HasError = true := by
  rw [Diagnostics.hasError_iff]
  exact ⟨d, Diagnostics.mem_push.mpr (Or.inr rfl), hd⟩

theorem Diagnostics.hasError_AddError (ds : Diagnostics) (summary detail : String) :
    (ds.AddError summary detail).HasError = true :=
  Diagnostics.hasError_push_error ds rfl

theorem Diagnostics.AddError_eq {ds : Diagnostics} (h : ds.HasError = false)
    (summary detail : String) :
    ds.AddError summary detail = ds ++ [⟨Severity.error, none, summary, detail⟩] :=
  Diagnostics.push_error h rfl

theorem selectCommand_token (c : K8sProviderConfiguration) (h : c.Token ≠ "") :
    selectCommand c
      = some ⟨kubectl, ["apply", "--server", c.Host, "--token", c.Token, "--output", "json"]⟩ := by
  unfold selectCommand
  rw [if_pos h]

theorem selectCommand_basic (c : K8sProviderConfiguration) (h : c.Token = "")
    (hu : c.Username ≠ "") (hp : c.Password ≠ "") :
    selectCommand c
      = some ⟨kubectl, ["apply", "--server", c.Host, "--username", c.Username,
          "--password", c.Password, "--output", "json"]⟩ := by
  unfold selectCommand
  rw [if_neg (fun hn => hn h), if_pos ⟨hu, hp⟩]

theorem selectCommand_none (c : K8sProviderConfiguration) (h : c.Token = "")
    (hup : c.Username = "" ∨ c.Password = "") : selectCommand c = none := by
  unfold selectCommand
  rw [if_neg (fun hn => hn h), if_neg]
  rintro ⟨hu, hp⟩
  rcases hup with h1 | h1
  · exact hu h1
  · exact hp h1

/-- Once the template is parsed and the attributes are collected without a conversion
error, `createOrUpdate` continues with `executeAndApply`. -/
theorem createOrUpdate_continue {T : Type} (W : Externals T) (r : CRDInstanceResource)
    (model : CRDInstanceResourceModel) (sink : Diagnostics) (tmpl : T) (attributes : GoMap)
    (hp : W.Parse model.Template.ValueString = some (GoResult.ok tmpl))
    (hc : model.Template.IsNull = false → (convertedSink W model sink).HasError = false)
    (ha : attributesOf W model = some attributes) :
    createOrUpdate W r model sink
      = executeAndApply W r model (convertedSink W model sink) (stagesBefore model)
          tmpl attributes := by
  unfold createOrUpdate
  rw [hp]
  unfold attributesOf at ha
  unfold convertedSink stagesBefore
  unfold convertedSink at hc
  cases hn : model.Template.IsNull with
  | true =>
    rw [hn] at ha
    simp only [Bool.not_true, Bool.false_eq_true, if_false] at ha ⊢
    rw [← Option.some.inj ha]
  | false =>
    rw [hn] at ha hc
    simp only [Bool.not_false, if_true] at ha hc ⊢
    rw [hc trivial, ha]
    simp

/-- A call of `executeAndApply` that ends without panic and without error in the sink
went through every stage: the template was executed, the command selected from the
configuration and run on the rendered document, and the model updated. -/
theorem executeAndApply_success {T : Type} (W : Externals T) (r : CRDInstanceResource)
    (model : CRDInstanceResourceModel) (d : Diagnostics) (s : List Stage) (tmpl : T)
    (attributes : GoMap) (o : Outcome)
    (h : executeAndApply W r model d s tmpl attributes = some o)
    (hp : o.panicked = false) (he : o.diagnostics.HasError = false) :
    ∃ buffer c cmd out, W.Execute tmpl attributes = some (GoResult.ok buffer) ∧
      r.configuration = some c ∧ selectCommand c = some cmd ∧ W.StdinPipe cmd = none ∧
      W.CombinedOutput cmd buffer = GoResult.ok out ∧
      o = ⟨{ model with Id := TfString.value "example-id", Applied := TfString.value buffer },
        d, s ++ [Stage.execute, Stage.stdinPipe, Stage.run], some (cmd, buffer), false⟩ := by
  unfold executeAndApply at h
  cases hx : W.Execute tmpl attributes with
  | none => rw [hx] at h; exact Option.noConfusion h
  | some res =>
    cases res with
    | err e =>
      rw [hx] at h
      have ho := Option.some.inj h
      rw [← ho] at he
      rw [Diagnostics.hasError_AddError] at he
      exact Bool.noConfusion he
    | ok buffer =>
      rw [hx] at h
      cases hcfg : r.configuration with
      | none =>
        rw [hcfg] at h
        have ho := Option.some.inj h
        rw [← ho] at hp
        exact Bool.noConfusion hp
      | some c =>
        rw [hcfg] at h
        cases hsel : selectCommand c with
        | none =>
          simp only [hsel] at h
          have ho := Option.some.inj h
          rw [← ho] at hp
          exact Bool.noConfusion hp
        | some cmd =>
          simp only [hsel] at h
          cases hpipe : W.StdinPipe cmd with
          | some e =>
            simp only [hpipe] at h
            have ho := Option.some.inj h
            rw [← ho] at he
            rw [Diagnostics.hasError_AddError] at he
            exact Bool.noConfusion he
          | none =>
            simp only [hpipe] at h
            cases hrun : W.CombinedOutput cmd buffer with
            | err e =>
              simp only [hrun] at h
              have ho := Option.some.inj h
              rw [← ho] at he
              rw [Diagnostics.hasError_AddError] at he
              exact Bool.noConfusion he
            | ok out =>
              simp only [hrun] at h
              exact ⟨buffer, c, cmd, out, rfl, rfl, hsel, hpipe, hrun, (Option.some.inj h).symm⟩

/-- A call of `createOrUpdate` that ends without panic and without error in the sink
parsed the template and collected the attributes, then went through
`executeAndApply`. -/
theorem createOrUpdate_success {T : Type} (W : Externals T) (r : CRDInstanceResource)
    (model : CRDInstanceResourceModel) (sink : Diagnostics) (o : Outcome)
    (h : createOrUpdate W r model sink = some o)
    (he : o.diagnostics.HasError = false) :
    ∃ tmpl attributes, W.Parse model.Template.ValueString = some (GoResult.ok tmpl) ∧
      attributesOf W model = some attributes ∧
      executeAndApply W r model (convertedSink W model sink) (stagesBefore model)
        tmpl attributes = some o := by
  unfold createOrUpdate at h
  unfold attributesOf convertedSink stagesBefore
  cases hx : W.Parse model.Template.ValueString with
  | none => rw [hx] at h; exact Option.noConfusion h
  | some res =>
    cases res with
    | err e =>
      rw [hx] at h
      have ho := Option.some.inj h
      rw [← ho] at he
      rw [Diagnostics.hasError_AddError] at he
      exact Bool.noConfusion he
    | ok tmpl =>
      rw [hx] at h
      cases hn : model.Template.IsNull with
      | true =>
        rw [hn] at h
        simp only [Bool.not_true, Bool.false_eq_true, if_false] at h ⊢
        exact ⟨tmpl, [], rfl, rfl, h⟩
      | false =>
        rw [hn] at h
        simp only [Bool.not_false, if_true] at h ⊢
        cases hd : (Diagnostics.Append sink (W.ToMapValue model.Attributes).2).HasError with
        | true =>
          rw [hd] at h
          simp only [if_true] at h
          have ho := Option.some.inj h
          rw [← ho] at he
          exact absurd (hd.symm.trans he) (by decide)
        | false =>
          rw [hd] at h
          simp only [Bool.false_eq_true, if_false] at h
          cases ha : collectAttributes W.Quote (W.ToMapValue model.Attributes).1.Elements [] with
          | none => rw [ha] at h; exact Option.noConfusion h
          | some attributes =>
            rw [ha] at h
            exact ⟨tmpl, attributes, rfl, rfl, h⟩

/-- A call of `executeAndApply` ends in a nil pointer dereference only when the
resource holds no configuration or no command was selected from it. -/
theorem executeAndApply_panicked {T : Type} (W : Externals T) (r : CRDInstanceResource)
    (model : CRDInstanceResourceModel) (d : Diagnostics) (s : List Stage) (tmpl : T)
    (attributes : GoMap) (o : Outcome)
    (h : executeAndApply W r model d s tmpl attributes = some o) (hp : o.panicked = true) :
    r.configuration = none ∨ ∃ c, r.configuration = some c ∧ selectCommand c = none := by
  unfold executeAndApply at h
  repeat' split at h
  all_goals first
    | exact Option.noConfusion h
    | (have ho := Option.some.inj h; subst ho; simp_all)

/-- The command run by `executeAndApply` is the one selected from the configuration,
and its standard input is the executed template. -/
theorem executeAndApply_sent {T : Type} (W : Externals T) (r : CRDInstanceResource)
    (model : CRDInstanceResourceModel) (d : Diagnostics) (s : List Stage) (tmpl : T)
    (attributes : GoMap) (o : Outcome) (cmd : Command) (doc : String)
    (h : executeAndApply W r model d s tmpl attributes = some o)
    (hs : o.sent = some (cmd, doc)) :
    (∃ c, r.configuration = some c ∧ selectCommand c = some cmd) ∧
      W.Execute tmpl attributes = some (GoResult.ok doc) := by
  unfold executeAndApply at h
  repeat' split at h
  all_goals first
    | exact Option.noConfusion h
    | (have ho := Option.some.inj h; subst ho; simp_all)

/-- Every result of `createOrUpdate` stops at the first stages or is a result of
`executeAndApply`. -/
theorem createOrUpdate_cases {T : Type} (W : Externals T) (r : CRDInstanceResource)
    (model : CRDInstanceResourceModel) (sink : Diagnostics) (o : Outcome)
    (h : createOrUpdate W r model sink = some o) :
    (o.model = model ∧ o.sent = none ∧ o.panicked = false ∧ o.diagnostics.HasError = true) ∨
    ∃ tmpl attributes, W.Parse model.Template.ValueString = some (GoResult.ok tmpl) ∧
      attributesOf W model = some attributes ∧
      executeAndApply W r model (convertedSink W model sink) (stagesBefore model)
        tmpl attributes = some o := by
  cases he : o.diagnostics.HasError with
  | false => exact Or.inr (createOrUpdate_success W r model sink o h he)
  | true =>
    unfold createOrUpdate at h
    unfold attributesOf convertedSink stagesBefore
    cases hx : W.Parse model.Template.ValueString with
    | none => rw [hx] at h; exact Option.noConfusion h
    | some res =>
      cases res with
      | err e =>
        rw [hx] at h
        have ho := Option.some.inj h
        subst ho
        exact Or.inl ⟨rfl, rfl, rfl, rfl⟩
      | ok tmpl =>
        rw [hx] at h
        cases hn : model.Template.IsNull with
        | true =>
          rw [hn] at h
          simp only [Bool.not_true, Bool.false_eq_true, if_false] at h
          exact Or.inr ⟨tmpl, [], rfl, rfl, h⟩
        | false =>
          rw [hn] at h
          simp only [Bool.not_false, if_true] at h
          cases hd : (Diagnostics.Append sink (W.ToMapValue model.Attributes).2).HasError with
          | true =>
            rw [hd] at h
            simp only [if_true] at h
            have ho := Option.some.inj h
            subst ho
            exact Or.inl ⟨rfl, rfl, rfl, rfl⟩
          | false =>
            rw [hd] at h
            simp only [Bool.false_eq_true, if_false] at h
            cases ha : collectAttributes W.Quote (W.ToMapValue model.Attributes).1.Elements [] with
            | none => rw [ha] at h; exact Option.noConfusion h
            | some attributes =>
              rw [ha] at h
              exact Or.inr ⟨tmpl, attributes, rfl, rfl, h⟩

/-! ## The scenarios, evaluated -/

theorem parse_malformed :
    parseTemplate "\x7b\x7b.name" = some (GoResult.err "template: crd:1: unclosed action") := by
  decide

theorem parse_widget :
    parseTemplate widgetPlan.Template.ValueString = some (GoResult.ok widgetTemplate) := by
  decide

theorem attributes_widget (pipe : Command → Option String)
    (run : Command → String → GoResult String) :
    attributesOf (goExternals pipe run) widgetPlan = some widgetAttributes := by
  rfl

theorem execute_widget :
    executeTemplate widgetTemplate widgetAttributes = some (GoResult.ok widgetDocument) := by
  decide

/-! ## createOrUpdate: the claims -/

/-- The result of `executeAndApply` once the template is executed, a command is
selected from the configuration and its input stream is obtained: the command is run
on the rendered document, and the model is updated when it exits without error. -/
theorem executeAndApply_run {T : Type} (W : Externals T) (c : K8sProviderConfiguration)
    (model : CRDInstanceResourceModel) (d : Diagnostics) (s : List Stage) (tmpl : T)
    (attributes : GoMap) (buffer : String) (cmd : Command)
    (hx : W.Execute tmpl attributes = some (GoResult.ok buffer))
    (hsel : selectCommand c = some cmd) (hpipe : W.StdinPipe cmd = none) :
    ∃ o, executeAndApply W ⟨some c⟩ model d s tmpl attributes = some o ∧
      o.sent = some (cmd, buffer) ∧
      o.stages = s ++ [Stage.execute, Stage.stdinPipe, Stage.run] ∧ o.panicked = false ∧
      (∀ out, W.CombinedOutput cmd buffer = GoResult.ok out →
        o.model = { model with Id := TfString.value "example-id",
                               Applied := TfString.value buffer } ∧
        o.diagnostics = d) ∧
      (∀ e, W.CombinedOutput cmd buffer = GoResult.err e →
        o.model = model ∧
        o.diagnostics = d.AddError "Error reading kubectl command output."
          ("The kubectl apply command\x27s output could not be read: " ++ e)) := by
  unfold executeAndApply
  simp only [hx, hsel, hpipe]
  cases hrun : W.CombinedOutput cmd buffer with
  | err e =>
    refine ⟨_, rfl, rfl, rfl, rfl, ?_, ?_⟩
    · intro out h; exact GoResult.noConfusion h
    · intro e' h
      rw [GoResult.err.inj h]
      exact ⟨rfl, rfl⟩
  | ok out =>
    refine ⟨_, rfl, rfl, rfl, rfl, ?_, ?_⟩
    · intro out' _; exact ⟨rfl, rfl⟩
    · intro e h; exact GoResult.noConfusion h

/-- The result of `executeAndApply` when the input stream of the selected command
cannot be obtained: the error is reported and nothing is run. -/
theorem executeAndApply_pipe_failed {T : Type} (W : Externals T)
    (c : K8sProviderConfiguration) (model : CRDInstanceResourceModel) (d : Diagnostics)
    (s : List Stage) (tmpl : T) (attributes : GoMap) (buffer : String) (cmd : Command)
    (e : String) (hx : W.Execute tmpl attributes = some (GoResult.ok buffer))
    (hsel : selectCommand c = some cmd) (hpipe : W.StdinPipe cmd = some e) :
    executeAndApply W ⟨some c⟩ model d s tmpl attributes
      = some ⟨model, d.AddError "Error executing external kubectl command."
          ("The kubectl apply command could not be executed: " ++ e),
        s ++ [Stage.execute, Stage.stdinPipe], none, false⟩ := by
  unfold executeAndApply
  simp only [hx, hsel, hpipe]

/-- C6. Authentication arguments in `createOrUpdate`. With a non-empty token the
command is the fixed executable with exactly `apply --server Host --token Token
--output json`, whatever username and password hold; with an empty token and a
non-empty username and password it is exactly `apply --server Host --username Username
--password Password --output json`. The two argument lists are never equal, and the
command that a call runs is the one selected from the configuration of the resource,
whatever the model, the sink and the libraries are. Every call of `createOrUpdate`
whose template stages succeed uses exactly that command: it asks for its input stream
(reporting the error and running nothing when that fails), and otherwise runs it with
the rendered document on its standard input, goes through every stage without panic,
and updates the model exactly when the command exits without error. -/
theorem command_arguments (c : K8sProviderConfiguration) :
    (c.Token ≠ "" →
      selectCommand c
        = some ⟨kubectl, ["apply", "--server", c.Host, "--token", c.Token, "--output", "json"]⟩) ∧
    (c.Token = "" → c.Username ≠ "" → c.Password ≠ "" →
      selectCommand c
        = some ⟨kubectl, ["apply", "--server", c.Host, "--username", c.Username,
            "--password", c.Password, "--output", "json"]⟩) ∧
    (∀ c' : K8sProviderConfiguration,
      ["apply", "--server", c.Host, "--token", c.Token, "--output", "json"]
        ≠ ["apply", "--server", c'.Host, "--username", c'.Username,
            "--password", c'.Password, "--output", "json"]) ∧
    (∀ (T : Type) (W : Externals T) (model : CRDInstanceResourceModel) (sink : Diagnostics)
      (o : Outcome) (cmd : Command) (doc : String),
      createOrUpdate W ⟨some c⟩ model sink = some o → o.sent = some (cmd, doc) →
      selectCommand c = some cmd) ∧
    (∀ (T : Type) (W : Externals T) (model : CRDInstanceResourceModel) (sink : Diagnostics)
      (tmpl : T) (attributes : GoMap) (buffer : String) (cmd : Command),
      W.Parse model.Template.ValueString = some (GoResult.ok tmpl) →
      (model.Template.IsNull = false → (convertedSink W model sink).HasError = false) →
      attributesOf W model = some attributes →
      W.Execute tmpl attributes = some (GoResult.ok buffer) →
      ((c.Token ≠ "" ∧
          cmd = ⟨kubectl, ["apply", "--server", c.Host, "--token", c.Token,
            "--output", "json"]⟩) ∨
        (c.Token = "" ∧ c.Username ≠ "" ∧ c.Password ≠ "" ∧
          cmd = ⟨kubectl, ["apply", "--server", c.Host, "--username", c.Username,
            "--password", c.Password, "--output", "json"]⟩)) →
      (W.StdinPipe cmd = none →
        ∃ o, createOrUpdate W ⟨some c⟩ model sink = some o ∧
          o.sent = some (cmd, buffer) ∧
          o.stages = stagesBefore model ++ [Stage.execute, Stage.stdinPipe, Stage.run] ∧
          o.panicked = false ∧
          (∀ out, W.CombinedOutput cmd buffer = GoResult.ok out →
            o.model = { model with Id := TfString.value "example-id",
                                   Applied := TfString.value buffer } ∧
            o.diagnostics = convertedSink W model sink) ∧
          (∀ e, W.CombinedOutput cmd buffer = GoResult.err e →
            o.model = model ∧
            o.diagnostics = (convertedSink W model sink).AddError
              "Error reading kubectl command output."
              ("The kubectl apply command\x27s output could not be read: " ++ e))) ∧
      (∀ e, W.StdinPipe cmd = some e →
        createOrUpdate W ⟨some c⟩ model sink
          = some ⟨model, (convertedSink W model sink).AddError
                "Error executing external kubectl command."
                ("The kubectl apply command could not be executed: " ++ e),
              stagesBefore model ++ [Stage.execute, Stage.stdinPipe], none, false⟩)) := by
  refine ⟨selectCommand_token c, selectCommand_basic c, ?_, ?_, ?_⟩
  · intro c' h
    have := congrArg List.length h
    simp at this
  · intro T W model sink o cmd doc h hs
    rcases createOrUpdate_cases W ⟨some c⟩ model sink o h with ⟨_, h2, _, _⟩ | ⟨tmpl, attrs, _, _, h3⟩
    · rw [h2] at hs
      exact Option.noConfusion hs
    · obtain ⟨⟨c0, hc0, hsel⟩, _⟩ := executeAndApply_sent W ⟨some c⟩ model _ _ tmpl attrs o cmd doc h3 hs
      rw [← Option.some.inj hc0] at hsel
      exact hsel
  · intro T W model sink tmpl attributes buffer cmd hp hc ha hx hcmd
    have hsel : selectCommand c = some cmd := by
      rcases hcmd with ⟨ht, he⟩ | ⟨ht, hu, hpw, he⟩
      · rw [he]; exact selectCommand_token c ht
      · rw [he]; exact selectCommand_basic c ht hu hpw
    rw [createOrUpdate_continue W ⟨some c⟩ model sink tmpl attributes hp hc ha]
    exact ⟨fun hpipe => executeAndApply_run W c model _ _ tmpl attributes buffer cmd hx hsel hpipe,
      fun e hpipe => executeAndApply_pipe_failed W c model _ _ tmpl attributes buffer cmd e
        hx hsel hpipe⟩

/-- C6, at concrete inputs: the widget plan applied with a token configuration (all
other fields set too) and with a username and password configuration. In both the
call sends the rendered document to the command with the expected arguments. -/
theorem command_arguments_witness :
    (selectCommand ⟨"h", "t", "u", "p"⟩
        = some ⟨kubectl, ["apply", "--server", "h", "--token", "t", "--output", "json"]⟩ ∧
      ∃ o, createOrUpdate (succeeding "ok") ⟨some ⟨"h", "t", "u", "p"⟩⟩ widgetPlan [] = some o ∧
        o.sent = some (⟨kubectl, ["apply", "--server", "h", "--token", "t",
          "--output", "json"]⟩, widgetDocument) ∧
        o.model.Applied = TfString.value widgetDocument) ∧
    (selectCommand ⟨"h", "", "u", "p"⟩
        = some ⟨kubectl, ["apply", "--server", "h", "--username", "u", "--password", "p",
            "--output", "json"]⟩ ∧
      ∃ o, createOrUpdate (succeeding "ok") ⟨some ⟨"h", "", "u", "p"⟩⟩ widgetPlan [] = some o ∧
        o.sent = some (⟨kubectl, ["apply", "--server", "h", "--username", "u",
          "--password", "p", "--output", "json"]⟩, widgetDocument) ∧
        o.model.Applied = TfString.value widgetDocument) := by
  constructor
  · refine ⟨(command_arguments ⟨"h", "t", "u", "p"⟩).1 (by decide), ?_⟩
    obtain ⟨o, h1, h2, _, _, h5, _⟩ :=
      ((command_arguments ⟨"h", "t", "u", "p"⟩).2.2.2.2 Template (succeeding "ok") widgetPlan []
        widgetTemplate widgetAttributes widgetDocument
        ⟨kubectl, ["apply", "--server", "h", "--token", "t", "--output", "json"]⟩
        parse_widget (fun _ => rfl) (attributes_widget _ _) execute_widget
        (Or.inl ⟨by decide, rfl⟩)).1 rfl
    exact ⟨o, h1, h2, by rw [(h5 "ok" rfl).1]⟩
  · refine ⟨(command_arguments ⟨"h", "", "u", "p"⟩).2.1 rfl (by decide) (by decide), ?_⟩
    obtain ⟨o, h1, h2, _, _, h5, _⟩ :=
      ((command_arguments ⟨"h", "", "u", "p"⟩).2.2.2.2 Template (succeeding "ok") widgetPlan []
        widgetTemplate widgetAttributes widgetDocument
        ⟨kubectl, ["apply", "--server", "h", "--username", "u", "--password", "p",
          "--output", "json"]⟩
        parse_widget (fun _ => rfl) (attributes_widget _ _) execute_widget
        (Or.inr ⟨rfl, by decide, by decide, rfl⟩)).1 rfl
    exact ⟨o, h1, h2, by rw [(h5 "ok" rfl).1]⟩

/-- C10. Command selection is total on validated configurations: for a configuration
handed out by `Configure` a command is selected, so no call of `createOrUpdate` on it
ends in a nil pointer dereference. Conversely, for a configuration with an empty token
and an empty username or password neither branch is taken: the command is nil, and a
call whose template stages succeed dereferences it when asking for its input stream,
with the model untouched and nothing run. -/
theorem command_selection_total :
    (∀ (getDiags : Diagnostics) (pm : K8sProviderModel) (env : Environment)
      (c : K8sProviderConfiguration),
      (Configure getDiags pm env).ResourceData = some c →
      (∃ cmd, selectCommand c = some cmd) ∧
      ∀ (T : Type) (W : Externals T) (model : CRDInstanceResourceModel) (sink : Diagnostics)
        (o : Outcome), createOrUpdate W ⟨some c⟩ model sink = some o → o.panicked = false) ∧
    (∀ c : K8sProviderConfiguration, c.Token = "" → (c.Username = "" ∨ c.Password = "") →
      selectCommand c = none ∧
      ∀ (T : Type) (W : Externals T) (model : CRDInstanceResourceModel) (sink : Diagnostics)
        (tmpl : T) (attributes : GoMap) (buffer : String),
        W.Parse model.Template.ValueString = some (GoResult.ok tmpl) →
        (model.Template.IsNull = false → (convertedSink W model sink).HasError = false) →
        attributesOf W model = some attributes →
        W.Execute tmpl attributes = some (GoResult.ok buffer) →
        createOrUpdate W ⟨some c⟩ model sink
          = some ⟨model, convertedSink W model sink,
              stagesBefore model ++ [Stage.execute, Stage.stdinPipe], none, true⟩) := by
  constructor
  · intro getDiags pm env c hc
    obtain ⟨_, _, _, _, hM⟩ := Configure_some getDiags pm env c hc
    have hsel : ∃ cmd, selectCommand c = some cmd := by
      by_cases ht : c.Token = ""
      · have hnot : ¬ (c.Token = "" ∧ (c.Username = "" ∨ c.Password = "")) := by
          rw [← credentialsMissing_iff, hM]
          exact Bool.noConfusion
        exact ⟨_, selectCommand_basic c ht (fun hu => hnot ⟨ht, Or.inl hu⟩)
          (fun hp => hnot ⟨ht, Or.inr hp⟩)⟩
      · exact ⟨_, selectCommand_token c ht⟩
    refine ⟨hsel, ?_⟩
    intro T W model sink o h
    cases hp : o.panicked with
    | false => rfl
    | true =>
      rcases createOrUpdate_cases W ⟨some c⟩ model sink o h with ⟨_, _, h3, _⟩ | ⟨tmpl, attrs, _, _, h3⟩
      · exact absurd (hp.symm.trans h3) (by decide)
      · rcases executeAndApply_panicked W ⟨some c⟩ model _ _ tmpl attrs o h3 hp with h4 | ⟨c0, h4, h5⟩
        · exact Option.noConfusion h4
        · obtain ⟨cmd, hcmd⟩ := hsel
          rw [← Option.some.inj h4, hcmd] at h5
          exact Option.noConfusion h5
  · intro c ht hup
    have hnone := selectCommand_none c ht hup
    refine ⟨hnone, ?_⟩
    intro T W model sink tmpl attributes buffer hp hc ha hx
    rw [createOrUpdate_continue W ⟨some c⟩ model sink tmpl attributes hp hc ha]
    unfold executeAndApply
    simp only [hx, hnone]

/-- C10, at a configuration produced from a static token and at one without
credentials. -/
theorem command_selection_total_witness :
    (∃ cmd, selectCommand ⟨"h", "t", "", ""⟩ = some cmd) ∧
    selectCommand ⟨"h", "", "u", ""⟩ = none :=
  ⟨(command_selection_total.1 [] ⟨TfString.value "h", TfString.value "t", TfString.null,
      TfString.null⟩ ⟨"", "", "", ""⟩ ⟨"h", "t", "", ""⟩ (by decide)).1,
   (command_selection_total.2 ⟨"h", "", "u", ""⟩ rfl (Or.inr rfl)).1⟩

theorem convertedSink_noError {T : Type} (W : Externals T) (model : CRDInstanceResourceModel)
    (sink : Diagnostics) (hsink : sink.HasError = false)
    (hc : model.Template.IsNull = false → (W.ToMapValue model.Attributes).2.HasError = false) :
    (convertedSink W model sink).HasError = false := by
  unfold convertedSink
  cases hn : model.Template.IsNull with
  | true => exact hsink
  | false =>
    simp only [Bool.not_false, if_true]
    rw [Diagnostics.hasError_Append, hsink, hc hn]
    rfl

theorem convertedSink_extends {T : Type} (W : Externals T) (model : CRDInstanceResourceModel)
    (sink : Diagnostics) : ∃ added, convertedSink W model sink = sink ++ added := by
  unfold convertedSink
  cases hn : model.Template.IsNull with
  | true => exact ⟨[], by simp⟩
  | false =>
    obtain ⟨added, h, _⟩ := Diagnostics.Append_extends (W.ToMapValue model.Attributes).2 sink
    exact ⟨added, by simpa using h⟩

/-- The outcome of `createOrUpdate` when `stage` fails, on a sink without error. -/
theorem createOrUpdate_failure {T : Type} (W : Externals T) (r : CRDInstanceResource)
    (model : CRDInstanceResourceModel) (sink : Diagnostics) (stage : Stage)
    (hsink : sink.HasError = false) (hfail : FailsAt W r model stage) :
    ∃ o added, createOrUpdate W r model sink = some o ∧ o.model = model ∧
      o.diagnostics = sink ++ added ∧ (∃ d ∈ added, d.severity = Severity.error) ∧
      o.stages = throughStage model stage ∧ o.panicked = false ∧
      (stage ≠ Stage.run → o.sent = none) := by
  cases stage with
  | parse =>
    obtain ⟨e, hp⟩ := hfail
    refine ⟨_, _, by unfold createOrUpdate; rw [hp], rfl,
      Diagnostics.AddError_eq hsink _ _, ⟨_, List.mem_singleton.mpr rfl, rfl⟩, rfl, rfl,
      fun _ => rfl⟩
  | convert =>
    obtain ⟨tmpl, hp, hn, hd⟩ := hfail
    obtain ⟨added, h1, h2⟩ := Diagnostics.Append_extends (W.ToMapValue model.Attributes).2 sink
    have he : (Diagnostics.Append sink (W.ToMapValue model.Attributes).2).HasError = true := by
      rw [Diagnostics.hasError_Append, hd, Bool.or_true]
    refine ⟨⟨model, Diagnostics.Append sink (W.ToMapValue model.Attributes).2,
      [Stage.parse, Stage.convert], none, false⟩, added, ?_, rfl, h1, ?_, rfl, rfl, fun _ => rfl⟩
    · unfold createOrUpdate
      rw [hp]
      simp only [hn, Bool.not_false, if_true, he]
    · rw [Diagnostics.hasError_iff] at he
      obtain ⟨d, hm, hs⟩ := he
      rw [h1] at hm
      rcases List.mem_append.mp hm with hm | hm
      · exact absurd hm (Diagnostics.not_mem_of_noError hsink hs)
      · exact ⟨d, hm, hs⟩
  | execute =>
    obtain ⟨tmpl, attributes, e, hp, hc, ha, hx⟩ := hfail
    have hne := convertedSink_noError W model sink hsink hc
    obtain ⟨added, hadd⟩ := convertedSink_extends W model sink
    refine ⟨⟨model, (convertedSink W model sink).AddError templateSummary
        ("The provided Custom Resource Definition template is not valid as it could not be parsed: " ++ e),
      stagesBefore model ++ [Stage.execute], none, false⟩,
      added ++ [⟨Severity.error, none, templateSummary,
        "The provided Custom Resource Definition template is not valid as it could not be parsed: " ++ e⟩],
      ?_, rfl, ?_,
      ⟨_, List.mem_append.mpr (Or.inr (List.mem_singleton.mpr rfl)), rfl⟩, rfl, rfl, ?_⟩
    · rw [createOrUpdate_continue W r model sink tmpl attributes hp (fun _ => hne) ha]
      unfold executeAndApply
      simp only [hx]
    · show Diagnostics.AddError _ _ _ = _
      rw [Diagnostics.AddError_eq hne, hadd, List.append_assoc]
    · intro _; rfl
  | stdinPipe =>
    obtain ⟨tmpl, attributes, buffer, c, cmd, e, hp, hc, ha, hx, hcfg, hsel, hpipe⟩ := hfail
    have hne := convertedSink_noError W model sink hsink hc
    obtain ⟨added, hadd⟩ := convertedSink_extends W model sink
    refine ⟨⟨model, (convertedSink W model sink).AddError "Error executing external kubectl command."
        ("The kubectl apply command could not be executed: " ++ e),
      stagesBefore model ++ [Stage.execute, Stage.stdinPipe], none, false⟩,
      added ++ [⟨Severity.error, none, "Error executing external kubectl command.",
        "The kubectl apply command could not be executed: " ++ e⟩],
      ?_, rfl, ?_,
      ⟨_, List.mem_append.mpr (Or.inr (List.mem_singleton.mpr rfl)), rfl⟩, rfl, rfl, ?_⟩
    · rw [createOrUpdate_continue W r model sink tmpl attributes hp (fun _ => hne) ha]
      unfold executeAndApply
      simp only [hx, hcfg, hsel, hpipe]
    · show Diagnostics.AddError _ _ _ = _
      rw [Diagnostics.AddError_eq hne, hadd, List.append_assoc]
    · intro _; rfl
  | run =>
    obtain ⟨tmpl, attributes, buffer, c, cmd, e, hp, hc, ha, hx, hcfg, hsel, hpipe, hrun⟩ := hfail
    have hne := convertedSink_noError W model sink hsink hc
    obtain ⟨added, hadd⟩ := convertedSink_extends W model sink
    refine ⟨⟨model, (convertedSink W model sink).AddError "Error reading kubectl command output."
        ("The kubectl apply command\x27s output could not be read: " ++ e),
      stagesBefore model ++ [Stage.execute, Stage.stdinPipe, Stage.run], some (cmd, buffer), false⟩,
      added ++ [⟨Severity.error, none, "Error reading kubectl command output.",
        "The kubectl apply command\x27s output could not be read: " ++ e⟩],
      ?_, rfl, ?_,
      ⟨_, List.mem_append.mpr (Or.inr (List.mem_singleton.mpr rfl)), rfl⟩, rfl, rfl, ?_⟩
    · rw [createOrUpdate_continue W r model sink tmpl attributes hp (fun _ => hne) ha]
      unfold executeAndApply
      simp only [hx, hcfg, hsel, hpipe, hrun]
    · show Diagnostics.AddError _ _ _ = _
      rw [Diagnostics.AddError_eq hne, hadd, List.append_assoc]
    · intro h; exact absurd rfl h

/-- The response of `Create` after a call of `createOrUpdate` that left an error in the sink: the state
is not written. -/
theorem Create_failed {T : Type} (W : Externals T) (r : CRDInstanceResource)
    (planDiags : Diagnostics) (model : CRDInstanceResourceModel) (o : Outcome)
    (hplan : (Diagnostics.Append [] planDiags).HasError = false)
    (h : createOrUpdate W r model (Diagnostics.Append [] planDiags) = some o)
    (hp : o.panicked = false) (he : o.diagnostics.HasError = true) :
    Create W r planDiags model = some ⟨o.diagnostics, none, o.sent, false⟩ := by
  unfold Create
  simp only [hplan, h, hp, he, Bool.false_eq_true, if_false, if_true]

/-- The response of `Update` after a call of `createOrUpdate` that left an error in the sink: the state
is not written. -/
theorem Update_failed {T : Type} (W : Externals T) (r : CRDInstanceResource)
    (planDiags : Diagnostics) (model : CRDInstanceResourceModel) (o : Outcome)
    (hplan : (Diagnostics.Append [] planDiags).HasError = false)
    (h : createOrUpdate W r model (Diagnostics.Append [] planDiags) = some o)
    (hp : o.panicked = false) (he : o.diagnostics.HasError = true) :
    Update W r planDiags model = some ⟨o.diagnostics, none, o.sent, false⟩ := by
  unfold Update
  simp only [hplan, h, hp, he, Bool.false_eq_true, if_false, if_true]

/-- The function `Update` performs the same steps as `Create`. -/
theorem Update_eq_Create {T : Type} (W : Externals T) (r : CRDInstanceResource)
    (planDiags : Diagnostics) (model : CRDInstanceResourceModel) :
    Update W r planDiags model = Create W r planDiags model := rfl

/-- A state written by `Create` comes from a call of `createOrUpdate` that went through
every stage: it is the planned model with the fixed identifier and with the rendered
document, which is also what the selected command received. -/
theorem Create_saved {T : Type} (W : Externals T) (r : CRDInstanceResource)
    (planDiags : Diagnostics) (model : CRDInstanceResourceModel) (resp : Response)
    (saved : CRDInstanceResourceModel)
    (h : Create W r planDiags model = some resp) (hs : resp.State = some saved) :
    ∃ tmpl attributes buffer c cmd out,
      W.Parse model.Template.ValueString = some (GoResult.ok tmpl) ∧
      attributesOf W model = some attributes ∧
      W.Execute tmpl attributes = some (GoResult.ok buffer) ∧
      r.configuration = some c ∧ selectCommand c = some cmd ∧
      W.CombinedOutput cmd buffer = GoResult.ok out ∧
      saved = { model with Id := TfString.value "example-id",
                           Applied := TfString.value buffer } ∧
      resp.sent = some (cmd, buffer) ∧ resp.panicked = false := by
  unfold Create at h
  simp only at h
  split at h
  · rw [← Option.some.inj h] at hs
    exact Option.noConfusion hs
  · split at h
    · exact Option.noConfusion h
    · rename_i o ho
      split at h
      · rw [← Option.some.inj h] at hs
        exact Option.noConfusion hs
      · rename_i hp
        split at h
        · rw [← Option.some.inj h] at hs
          exact Option.noConfusion hs
        · rename_i he
          have hp' : o.panicked = false := by
            cases hx : o.panicked with
            | true => exact absurd hx hp
            | false => rfl
          have he' : o.diagnostics.HasError = false := by
            cases hx : o.diagnostics.HasError with
            | true => exact absurd hx he
            | false => rfl
          obtain ⟨tmpl, attributes, h1, h2, h3⟩ :=
            createOrUpdate_success W r model _ o ho he'
          obtain ⟨buffer, c, cmd, out, h4, h5, h6, _, h8, h9⟩ :=
            executeAndApply_success W r model _ _ tmpl attributes o h3 hp' he'
          have hr := Option.some.inj h
          rw [← hr] at hs ⊢
          simp only at hs
          split at hs
          · exact Option.noConfusion hs
          · have hsv := Option.some.inj hs
            rw [← hsv, h9]
            exact ⟨tmpl, attributes, buffer, c, cmd, out, h1, h2, h4, h5, h6, h8, rfl, rfl, rfl⟩

/-! ## Create and Update: the claims -/

/-- C7. Failure atomicity of `Create` and `Update`. Whatever the libraries, the
resource and the model are, on a sink without error, when a stage fails (template
parse, attribute conversion, template execution, obtaining the input stream, running
the command) `createOrUpdate` returns with the model as on entry (so `Applied` and
`Id` are untouched), the sink extended by new entries of which one is an error, the
stages entered being those up to the failing one and no later one (the command was not
run unless running it is what failed), and `Create` and `Update` do not write the
state. For the template with an unclosed action and an empty sink, the sink ends with
exactly one entry, the model is untouched and `Create` writes no state. -/
theorem failure_atomicity :
    (∀ (T : Type) (W : Externals T) (r : CRDInstanceResource)
      (model : CRDInstanceResourceModel) (sink : Diagnostics) (stage : Stage),
      sink.HasError = false → FailsAt W r model stage →
      ∃ o added, createOrUpdate W r model sink = some o ∧
        o.model = model ∧ o.model.Applied = model.Applied ∧ o.model.Id = model.Id ∧
        o.diagnostics = sink ++ added ∧ (∃ d ∈ added, d.severity = Severity.error) ∧
        o.stages = throughStage model stage ∧ o.panicked = false ∧
        (stage ≠ Stage.run → o.sent = none) ∧
        ∀ planDiags, sink = Diagnostics.Append [] planDiags →
          Create W r planDiags model = some ⟨o.diagnostics, none, o.sent, false⟩ ∧
          Update W r planDiags model = some ⟨o.diagnostics, none, o.sent, false⟩) ∧
    (∀ (pipe : Command → Option String) (run : Command → String → GoResult String)
      (r : CRDInstanceResource) (attributes : TfMap) (applied id : TfString),
      createOrUpdate (goExternals pipe run) r (malformedPlan attributes applied id) []
        = some ⟨malformedPlan attributes applied id, [unclosedActionDiagnostic],
            [Stage.parse], none, false⟩ ∧
      [unclosedActionDiagnostic].length = 1 ∧
      Create (goExternals pipe run) r [] (malformedPlan attributes applied id)
        = some ⟨[unclosedActionDiagnostic], none, none, false⟩) := by
  constructor
  · intro T W r model sink stage hsink hfail
    obtain ⟨o, added, h1, h2, h3, h4, h5, h6, h7⟩ :=
      createOrUpdate_failure W r model sink stage hsink hfail
    refine ⟨o, added, h1, h2, by rw [h2], by rw [h2], h3, h4, h5, h6, h7, ?_⟩
    intro planDiags hpd
    subst hpd
    have he : o.diagnostics.HasError = true := by
      obtain ⟨d, hd, hs⟩ := h4
      rw [Diagnostics.hasError_iff]
      exact ⟨d, by rw [h3]; exact List.mem_append.mpr (Or.inr hd), hs⟩
    exact ⟨Create_failed W r planDiags model o hsink h1 h6 he,
      Update_failed W r planDiags model o hsink h1 h6 he⟩
  · intro pipe run r attributes applied id
    have hcu : createOrUpdate (goExternals pipe run) r (malformedPlan attributes applied id) []
        = some ⟨malformedPlan attributes applied id, [unclosedActionDiagnostic],
            [Stage.parse], none, false⟩ := by
      unfold createOrUpdate
      have hp : (goExternals pipe run).Parse (malformedPlan attributes applied id).Template.ValueString
          = some (GoResult.err "template: crd:1: unclosed action") := parse_malformed
      rw [hp]
      rfl
    refine ⟨hcu, rfl, ?_⟩
    exact Create_failed (goExternals pipe run) r [] _ _ rfl hcu rfl rfl

/-- C7, at concrete inputs: the unclosed action, and a command that exits with an
error on the plan of the successful scenario. -/
theorem failure_atomicity_witness :
    (∃ o added, createOrUpdate (succeeding "") ⟨none⟩
        (malformedPlan TfMap.null TfString.unknown TfString.unknown) [] = some o ∧
      o.model = malformedPlan TfMap.null TfString.unknown TfString.unknown ∧
      o.model.Applied = TfString.unknown ∧ o.model.Id = TfString.unknown ∧
      o.diagnostics = [] ++ added ∧ (∃ d ∈ added, d.severity = Severity.error) ∧
      o.stages = [Stage.parse] ∧ o.panicked = false ∧
      (Stage.parse ≠ Stage.run → o.sent = none) ∧
      ∀ planDiags, [] = Diagnostics.Append [] planDiags →
        Create (succeeding "") ⟨none⟩ planDiags
            (malformedPlan TfMap.null TfString.unknown TfString.unknown)
          = some ⟨o.diagnostics, none, o.sent, false⟩ ∧
        Update (succeeding "") ⟨none⟩ planDiags
            (malformedPlan TfMap.null TfString.unknown TfString.unknown)
          = some ⟨o.diagnostics, none, o.sent, false⟩) ∧
    (∃ o added, createOrUpdate
        (goExternals (fun _ => none) (fun _ _ => GoResult.err "exit status 1"))
        ⟨some ⟨"https://k8s", "secret123", "", ""⟩⟩ widgetPlan [] = some o ∧
      o.model = widgetPlan ∧
      o.model.Applied = TfString.unknown ∧ o.model.Id = TfString.unknown ∧
      o.diagnostics = [] ++ added ∧ (∃ d ∈ added, d.severity = Severity.error) ∧
      o.stages = [Stage.parse, Stage.convert, Stage.execute, Stage.stdinPipe, Stage.run] ∧
      o.panicked = false ∧
      (Stage.run ≠ Stage.run → o.sent = none) ∧
      ∀ planDiags, [] = Diagnostics.Append [] planDiags →
        Create (goExternals (fun _ => none) (fun _ _ => GoResult.err "exit status 1"))
            ⟨some ⟨"https://k8s", "secret123", "", ""⟩⟩ planDiags widgetPlan
          = some ⟨o.diagnostics, none, o.sent, false⟩ ∧
        Update (goExternals (fun _ => none) (fun _ _ => GoResult.err "exit status 1"))
            ⟨some ⟨"https://k8s", "secret123", "", ""⟩⟩ planDiags widgetPlan
          = some ⟨o.diagnostics, none, o.sent, false⟩) :=
  ⟨failure_atomicity.1 Template (succeeding "") ⟨none⟩
      (malformedPlan TfMap.null TfString.unknown TfString.unknown) [] Stage.parse rfl
      ⟨_, parse_malformed⟩,
   failure_atomicity.1 Template
      (goExternals (fun _ => none) (fun _ _ => GoResult.err "exit status 1"))
      ⟨some ⟨"https://k8s", "secret123", "", ""⟩⟩ widgetPlan [] Stage.run rfl
      ⟨widgetTemplate, widgetAttributes, widgetDocument, ⟨"https://k8s", "secret123", "", ""⟩,
        ⟨kubectl, ["apply", "--server", "https://k8s", "--token", "secret123",
          "--output", "json"]⟩, "exit status 1",
        parse_widget, fun _ => rfl, attributes_widget _ _, execute_widget, rfl, by decide,
        rfl, rfl⟩⟩

/-- C8, refuted as stated: an incoming model whose id is `abc` is saved by a successful
`Update` with the id `example-id`. -/
theorem update_reassigns_id :
    Update (succeeding "ok") ⟨some ⟨"https://k8s", "secret123", "", ""⟩⟩ []
        ⟨TfMap.null, TfString.value "kind: Widget\n", TfString.value "kind: Widget\n",
          TfString.value "abc"⟩
      = some ⟨[], some ⟨TfMap.null, TfString.value "kind: Widget\n",
            TfString.value "kind: Widget\n", TfString.value "example-id"⟩,
          some (⟨kubectl, ["apply", "--server", "https://k8s", "--token", "secret123",
            "--output", "json"]⟩, "kind: Widget\n"), false⟩ ∧
    TfString.value "example-id" ≠ TfString.value "abc" := by
  decide

/-- C8, amended. The model saved by a successful `Update` carries the fixed identifier
`example-id` whatever the incoming id was, so the incoming id is kept exactly when it
already is that identifier; template and attributes are kept and `Applied` is the
document that was sent. Consequently a `Create` followed by an `Update` with the same
template and attributes saves the same id and the same `Applied` value as the
`Create` did. -/
theorem update_saves_fixed_id :
    (∀ (T : Type) (W : Externals T) (r : CRDInstanceResource) (planDiags : Diagnostics)
      (model saved : CRDInstanceResourceModel) (resp : Response),
      Update W r planDiags model = some resp → resp.State = some saved →
      saved.Id = TfString.value "example-id" ∧
      (saved.Id = model.Id ↔ model.Id = TfString.value "example-id") ∧
      saved.Template = model.Template ∧ saved.Attributes = model.Attributes ∧
      ∃ cmd doc, resp.sent = some (cmd, doc) ∧ saved.Applied = TfString.value doc) ∧
    (∀ (T : Type) (W : Externals T) (r : CRDInstanceResource) (pd1 pd2 : Diagnostics)
      (m1 m2 s1 s2 : CRDInstanceResourceModel) (resp1 resp2 : Response),
      Create W r pd1 m1 = some resp1 → resp1.State = some s1 →
      m2.Template = m1.Template → m2.Attributes = m1.Attributes →
      Update W r pd2 m2 = some resp2 → resp2.State = some s2 →
      s2.Id = s1.Id ∧ s2.Applied = s1.Applied ∧
      ∃ cmd doc, resp1.sent = some (cmd, doc) ∧ s2.Applied = TfString.value doc) := by
  constructor
  · intro T W r planDiags model saved resp h hs
    rw [Update_eq_Create] at h
    obtain ⟨tmpl, attributes, buffer, c, cmd, out, _, _, _, _, _, _, hsv, hsent, _⟩ :=
      Create_saved W r planDiags model resp saved h hs
    rw [hsv]
    refine ⟨rfl, ?_, rfl, rfl, cmd, buffer, hsent, rfl⟩
    constructor
    · intro h1; exact h1.symm
    · intro h1; exact h1.symm
  · intro T W r pd1 pd2 m1 m2 s1 s2 resp1 resp2 h1 hs1 hT hA h2 hs2
    rw [Update_eq_Create] at h2
    obtain ⟨t1, a1, b1, c1, cmd1, out1, p1, q1, x1, _, _, _, hsv1, hsent1, _⟩ :=
      Create_saved W r pd1 m1 resp1 s1 h1 hs1
    obtain ⟨t2, a2, b2, c2, cmd2, out2, p2, q2, x2, _, _, _, hsv2, _, _⟩ :=
      Create_saved W r pd2 m2 resp2 s2 h2 hs2
    have ht : t2 = t1 := by
      rw [hT, p1] at p2
      exact (GoResult.ok.inj (Option.some.inj p2)).symm
    have ha : a2 = a1 := by
      have : attributesOf W m2 = attributesOf W m1 := by
        unfold attributesOf
        rw [hT, hA]
      rw [this, q1] at q2
      exact (Option.some.inj q2).symm
    have hb : b2 = b1 := by
      rw [ht, ha, x1] at x2
      exact (GoResult.ok.inj (Option.some.inj x2)).symm
    rw [hsv1, hsv2, hb]
    exact ⟨rfl, rfl, cmd1, b1, hsent1, rfl⟩

/-- C8 amended, at concrete inputs: an `Update` with incoming id `abc`, and a `Create`
of the widget plan followed by an `Update` of the same plan. -/
theorem update_saves_fixed_id_witness :
    (∃ resp saved, Update (succeeding "ok") tokenResource [] incomingPlan = some resp ∧
      resp.State = some saved ∧
      saved.Id = TfString.value "example-id" ∧
      (saved.Id = incomingPlan.Id ↔ incomingPlan.Id = TfString.value "example-id") ∧
      saved.Template = incomingPlan.Template ∧ saved.Attributes = incomingPlan.Attributes ∧
      ∃ cmd doc, resp.sent = some (cmd, doc) ∧ saved.Applied = TfString.value doc) ∧
    (∃ resp1 s1 resp2 s2, Create (succeeding "ok") tokenResource [] widgetPlan = some resp1 ∧
      resp1.State = some s1 ∧
      Update (succeeding "ok") tokenResource [] { widgetPlan with Id := s1.Id } = some resp2 ∧
      resp2.State = some s2 ∧
      s2.Id = s1.Id ∧ s2.Applied = s1.Applied ∧
      ∃ cmd doc, resp1.sent = some (cmd, doc) ∧ s2.Applied = TfString.value doc) :=
  ⟨⟨⟨[], some { incomingPlan with Id := TfString.value "example-id" },
        some (tokenCommand, "kind: Widget\n"), false⟩,
      { incomingPlan with Id := TfString.value "example-id" }, by decide, rfl,
      update_saves_fixed_id.1 Template (succeeding "ok") tokenResource [] incomingPlan
        { incomingPlan with Id := TfString.value "example-id" }
        ⟨[], some { incomingPlan with Id := TfString.value "example-id" },
          some (tokenCommand, "kind: Widget\n"), false⟩
        (by decide) rfl⟩,
   ⟨⟨[], some { widgetPlan with Id := TfString.value "example-id",
                                Applied := TfString.value widgetDocument },
        some (tokenCommand, widgetDocument), false⟩,
      { widgetPlan with Id := TfString.value "example-id",
                        Applied := TfString.value widgetDocument },
      ⟨[], some { widgetPlan with Id := TfString.value "example-id",
                                  Applied := TfString.value widgetDocument },
        some (tokenCommand, widgetDocument), false⟩,
      { widgetPlan with Id := TfString.value "example-id",
                        Applied := TfString.value widgetDocument },
      by decide, rfl, by decide, rfl,
      update_saves_fixed_id.2 Template (succeeding "ok") tokenResource [] []
        widgetPlan { widgetPlan with Id := TfString.value "example-id" }
        { widgetPlan with Id := TfString.value "example-id",
                          Applied := TfString.value widgetDocument }
        { widgetPlan with Id := TfString.value "example-id",
                          Applied := TfString.value widgetDocument }
        ⟨[], some { widgetPlan with Id := TfString.value "example-id",
                                    Applied := TfString.value widgetDocument },
          some (tokenCommand, widgetDocument), false⟩
        ⟨[], some { widgetPlan with Id := TfString.value "example-id",
                                    Applied := TfString.value widgetDocument },
          some (tokenCommand, widgetDocument), false⟩
        (by decide) rfl rfl rfl (by decide) rfl⟩⟩

/-- C9, refuted as stated: for the widget template with attributes `name = alpha`, a
token configuration and a command that exits with a status document, `Create` sends
and stores the document in which the value appears in its quoted form, which is not
the document with the bare value. -/
theorem create_widget_quotes_value :
    Create (succeeding "\x7b\"status\":\"ok\"\x7d")
        ⟨some ⟨"https://k8s", "secret123", "", ""⟩⟩ [] widgetPlan
      = some ⟨[], some ⟨TfMap.value [("name", TfString.value "alpha")],
            TfString.value "kind: Widget\nname: \x7b\x7b.name\x7d\x7d\n",
            TfString.value "kind: Widget\nname: \"alpha\"\n", TfString.value "example-id"⟩,
          some (⟨kubectl, ["apply", "--server", "https://k8s", "--token", "secret123",
            "--output", "json"]⟩, "kind: Widget\nname: \"alpha\"\n"), false⟩ ∧
    "kind: Widget\nname: \"alpha\"\n" ≠ "kind: Widget\nname: alpha\n" := by
  decide

/-- C9, amended. A successful `Create` stores in `Applied` exactly the document that
was rendered from the template and the attribute map and written to the standard input
of the command, and assigns the non-empty id `example-id`. The attribute map holds for
each element its `String()` form, which for a known string is the `%q` quoted form: for
the widget template with attributes `name = alpha` and any configuration selecting a
command, on a successful run the document sent and stored is `kind: Widget` followed
by the line `name: "alpha"` with the quotes. -/
theorem create_applies_rendered :
    (∀ (T : Type) (W : Externals T) (r : CRDInstanceResource) (planDiags : Diagnostics)
      (model saved : CRDInstanceResourceModel) (resp : Response),
      Create W r planDiags model = some resp → resp.State = some saved →
      ∃ tmpl attributes cmd doc,
        W.Parse model.Template.ValueString = some (GoResult.ok tmpl) ∧
        attributesOf W model = some attributes ∧
        W.Execute tmpl attributes = some (GoResult.ok doc) ∧
        resp.sent = some (cmd, doc) ∧ saved.Applied = TfString.value doc ∧
        saved.Id = TfString.value "example-id" ∧ saved.Id.ValueString ≠ "") ∧
    (∀ (quote : String → Option String) (s : String),
      (TfString.value s).String quote = quote s) ∧
    quote "alpha" = some "\"alpha\"" ∧
    (∀ (output : String) (c : K8sProviderConfiguration) (cmd : Command),
      selectCommand c = some cmd →
      Create (succeeding output) ⟨some c⟩ [] widgetPlan
        = some ⟨[], some { widgetPlan with
              Id := TfString.value "example-id",
              Applied := TfString.value "kind: Widget\nname: \"alpha\"\n" },
            some (cmd, "kind: Widget\nname: \"alpha\"\n"), false⟩) := by
  refine ⟨?_, fun _ _ => rfl, by decide, ?_⟩
  · intro T W r planDiags model saved resp h hs
    obtain ⟨tmpl, attributes, buffer, c, cmd, out, h1, h2, h3, _, _, _, hsv, hsent, _⟩ :=
      Create_saved W r planDiags model resp saved h hs
    rw [hsv]
    have hid : (TfString.value "example-id").ValueString ≠ "" := by decide
    exact ⟨tmpl, attributes, cmd, buffer, h1, h2, h3, hsent, rfl, rfl, hid⟩
  · intro output c cmd hsel
    have hcu : createOrUpdate (succeeding output) ⟨some c⟩ widgetPlan []
        = some ⟨{ widgetPlan with Id := TfString.value "example-id",
                                  Applied := TfString.value widgetDocument },
            [], [Stage.parse, Stage.convert, Stage.execute, Stage.stdinPipe, Stage.run],
            some (cmd, widgetDocument), false⟩ := by
      rw [createOrUpdate_continue (succeeding output) ⟨some c⟩ widgetPlan [] widgetTemplate
        widgetAttributes parse_widget (fun _ => rfl) (attributes_widget _ _)]
      unfold executeAndApply
      have hx : (succeeding output).Execute widgetTemplate widgetAttributes
          = some (GoResult.ok widgetDocument) := execute_widget
      simp only [hx, hsel]
      rfl
    unfold Create
    have h0 : Diagnostics.HasError (Diagnostics.Append [] []) = false := rfl
    have h00 : Diagnostics.Append [] [] = ([] : Diagnostics) := rfl
    simp only [h0, h00, hcu, Bool.false_eq_true, if_false]
    rfl

/-- C9 amended, at the configuration of the scenario (token `secret123`). -/
theorem create_applies_rendered_witness :
    Create (succeeding "\x7b\"status\":\"ok\"\x7d")
        ⟨some ⟨"https://k8s", "secret123", "", ""⟩⟩ [] widgetPlan
      = some ⟨[], some { widgetPlan with
            Id := TfString.value "example-id",
            Applied := TfString.value "kind: Widget\nname: \"alpha\"\n" },
          some (⟨kubectl, ["apply", "--server", "https://k8s", "--token", "secret123",
            "--output", "json"]⟩, "kind: Widget\nname: \"alpha\"\n"), false⟩ :=
  create_applies_rendered.2.2.2 "\x7b\"status\":\"ok\"\x7d"
    ⟨"https://k8s", "secret123", "", ""⟩
    ⟨kubectl, ["apply", "--server", "https://k8s", "--token", "secret123",
      "--output", "json"]⟩ (by decide)

end K8sCrd
